import Mathlib

set_option autoImplicit false

namespace K8sAutoDev

/-!
Shallow embedding of the `k8s_auto_dev_platform` Python package.

Python values occurring in a requirements mapping are modelled by the
JSON-like inductive `Value`; Python dictionaries by ordered association
lists (`Obj`), with `dict.update` semantics (replace in place, append new
keys at the end).  Exceptions are modelled by `Except PyErr`.  The
filesystem is an explicit state (`FS`) threaded through the generator,
deployer and orchestrator; external subprocesses (the test command and the
cluster CLI) are oracles passed in as functions.
-/


/-- Python values appearing in requirements mappings (JSON-like). -/
inductive Value where
  | null
  | bool (b : Bool)
  | int (n : Int)
  | str (s : String)
  | list (xs : List Value)
  | obj (fields : List (String × Value))

/-- A Python dict with string keys: ordered association list. -/
abbrev Obj := List (String × Value)

/-- Lookup of a key in a dict (first match; keys are unique in practice). -/
def getVal? : Obj → String → Option Value
  | [], _ => none
  | (k, v) :: rest, key => if k = key then some v else getVal? rest key

/-- Python `key in dict`. -/
def hasKey (d : Obj) (k : String) : Bool := (getVal? d k).isSome

/-- Python `dict.get(key)` (default `None`). -/
def pyGet (d : Obj) (k : String) : Value := (getVal? d k).getD .null

/-- Python `dict.get(key, default)`. -/
def pyGetD (d : Obj) (k : String) (dflt : Value) : Value := (getVal? d k).getD dflt

/-- Python `dict[key] = v`: replace in place, else append. -/
def setVal : Obj → String → Value → Obj
  | [], key, v => [(key, v)]
  | (k, w) :: rest, key, v =>
    if k = key then (k, v) :: rest else (k, w) :: setVal rest key v

/-- Python `dict.update({...})` with an ordered list of key/value pairs. -/
def updateVals (d : Obj) (kvs : List (String × Value)) : Obj :=
  kvs.foldl (fun acc kv => setVal acc kv.1 kv.2) d

/-- Python truthiness for the modelled values. -/
def truthy : Value → Bool
  | .null => false
  | .bool b => b
  | .int n => n != 0
  | .str s => s != ""
  | .list xs => !xs.isEmpty
  | .obj kvs => !kvs.isEmpty

/-- Characters stripped by Python `str.strip()` (ASCII whitespace). -/
def isPySpace (c : Char) : Bool :=
  c == ' ' || c == '\t' || c == '\n' || c == '\x0d' || c == '\x0b' || c == '\x0c'

/-- Drop characters satisfying `p` from both ends of a character list. -/
def stripList (p : Char → Bool) (l : List Char) : List Char :=
  ((l.dropWhile p).reverse.dropWhile p).reverse

/-- Python `str.strip()`. -/
def pyStrip (s : String) : String := ⟨stripList isPySpace s.toList⟩

/-- ASCII lower-casing of one character (Python `str.lower` on ASCII);
65–90 are the codes of `A`–`Z`. -/
def asciiLower (c : Char) : Char :=
  if 65 ≤ c.toNat ∧ c.toNat ≤ 90 then Char.ofNat (c.toNat + 32) else c

/-- ASCII upper-casing of one character (Python `str.upper` on ASCII);
97–122 are the codes of `a`–`z`. -/
def asciiUpper (c : Char) : Char :=
  if 97 ≤ c.toNat ∧ c.toNat ≤ 122 then Char.ofNat (c.toNat - 32) else c

/-- Python `str.lower()` (ASCII model). -/
def pyLower (s : String) : String := ⟨s.toList.map asciiLower⟩

/-- Python `str.upper()` (ASCII model). -/
def pyUpper (s : String) : String := ⟨s.toList.map asciiUpper⟩

/-- Characters matched by `[a-z0-9]`, the complement of `_SLUGIFY_PATTERN`;
97–122 are the codes of `a`–`z` and 48–57 those of `0`–`9`. -/
def isSlugChar (c : Char) : Bool :=
  (97 ≤ c.toNat && c.toNat ≤ 122) || (48 ≤ c.toNat && c.toNat ≤ 57)

/-- Replace each maximal run of non-`[a-z0-9]` characters with a single
dash: the effect of `_SLUGIFY_PATTERN.sub("-", ...)`.  The boolean records
whether we are inside such a run. -/
def collapseRuns : Bool → List Char → List Char
  | _, [] => []
  | inRun, c :: rest =>
    if isSlugChar c then c :: collapseRuns false rest
    else if inRun then collapseRuns true rest
    else '-' :: collapseRuns true rest

/-- Core of `slugify` on character lists: strip, lower, collapse, trim. -/
def slugifyCore (l : List Char) : List Char :=
  stripList (fun c => c == '-')
    (collapseRuns false ((stripList isPySpace l).map asciiLower))

/-- Embedding of `utils.slugify`. -/
def slugify (s : String) : String :=
  let l := slugifyCore s.toList
  if l.isEmpty then "project" else ⟨l⟩

/-- Python `str.replace("-", "_")` (single-character replace). -/
def dashToUnderscore (s : String) : String :=
  ⟨s.toList.map (fun c => if c == '-' then '_' else c)⟩

/-- Decimal digit character. -/
def digitChar (n : Nat) : Char := Char.ofNat (48 + n % 10)

/-- Fuelled decimal rendering of a natural number. -/
def natReprAux : Nat → Nat → List Char
  | 0, _ => []
  | fuel + 1, n =>
    if n < 10 then [digitChar n] else natReprAux fuel (n / 10) ++ [digitChar n]

/-- Decimal rendering of a natural number. -/
def natRepr (n : Nat) : String := ⟨natReprAux (n + 1) n⟩

/-- Decimal rendering of an integer (Python `str(int)`). -/
def intRepr (n : Int) : String :=
  if n < 0 then ⟨'-' :: (natRepr n.natAbs).toList⟩ else natRepr n.natAbs

mutual

/-- Python `repr` for the modelled values (string escaping elided). -/
def pyRepr : Value → String
  | .null => "None"
  | .bool b => if b then "True" else "False"
  | .int n => intRepr n
  | .str s => "\x27" ++ s ++ "\x27"
  | .list xs => "[" ++ pyReprList xs ++ "]"
  | .obj kvs => "\x7b" ++ pyReprObj kvs ++ "\x7d"

/-- Comma-separated reprs of list elements. -/
def pyReprList : List Value → String
  | [] => ""
  | [x] => pyRepr x
  | x :: y :: rest => pyRepr x ++ ", " ++ pyReprList (y :: rest)

/-- Comma-separated reprs of dict entries. -/
def pyReprObj : List (String × Value) → String
  | [] => ""
  | [(k, v)] => "\x27" ++ k ++ "\x27: " ++ pyRepr v
  | (k, v) :: e :: rest =>
    "\x27" ++ k ++ "\x27: " ++ pyRepr v ++ ", " ++ pyReprObj (e :: rest)

end

/-- Python `str(...)` on the modelled values. -/
def pyStr : Value → String
  | .str s => s
  | v => pyRepr v

/-- Parse an optional run of decimal digits (`none` when empty or invalid). -/
def parseDigits : List Char → Option Nat
  | [] => none
  | l => parseDigitsAux l 0
where
  parseDigitsAux : List Char → Nat → Option Nat
    | [], acc => some acc
    | c :: rest, acc =>
      if 48 ≤ c.toNat && c.toNat ≤ 57 then
        parseDigitsAux rest (acc * 10 + (c.toNat - 48))
      else none

/-- Python `int(str)`: strip whitespace, optional sign, decimal digits. -/
def pyIntOfString (s : String) : Option Int :=
  match stripList isPySpace s.toList with
  | '-' :: rest => (parseDigits rest).map (fun n => -(n : Int))
  | '+' :: rest => (parseDigits rest).map (fun n => (n : Int))
  | l => (parseDigits l).map (fun n => (n : Int))

/-- Python `int(...)` on the modelled values (`none` models a raised error). -/
def pyInt : Value → Option Int
  | .int n => some n
  | .bool b => some (if b then 1 else 0)
  | .str s => pyIntOfString s
  | _ => none

/-- Exception kinds raised by the platform (Python exception classes). -/
inductive PyErr where
  | valueError (msg : String)
  | typeError (msg : String)
  | keyError (msg : String)
  | fileExists (msg : String)
  deriving DecidableEq

/-- The set `_ALLOWED_METHODS` of simple_service.py. -/
def allowedMethods : List String := ["GET", "POST", "PUT", "DELETE"]

/-- The result of `sorted(_ALLOWED_METHODS)` (alphabetical order). -/
def sortedAllowedMethods : List String := ["DELETE", "GET", "POST", "PUT"]

/-- Embedding of `BaseTemplate._ensure_fields`. -/
def ensureFields (templateName : String) (d : Obj) (fields : List String) :
    Except PyErr Unit :=
  let missing := fields.filter (fun f => !hasKey d f)
  if missing.isEmpty then .ok ()
  else
    .error (.valueError ("Missing required fields for template \x27" ++
      templateName ++ "\x27: " ++ String.intercalate ", " missing))

/-- Python `list(...)` coercion, as used for `list(requirements.get("routes") or [])`. -/
def pyList : Value → Except PyErr (List Value)
  | .list xs => .ok xs
  | .str s => .ok (s.toList.map (fun c => .str ⟨[c]⟩))
  | .obj kvs => .ok (kvs.map (fun kv => Value.str kv.1))
  | _ => .error (.typeError "object is not iterable")

/-- Python `s.startswith("/")`. -/
def startsWithSlash (s : String) : Bool :=
  match s.toList with
  | '/' :: _ => true
  | _ => false

/-- The default route synthesized when `routes` is empty or absent. -/
def defaultRoute (serviceName : String) : Value :=
  .obj [("name", .str "root"), ("identifier", .str "root"),
        ("method", .str "GET"), ("path", .str "/"), ("status", .int 200),
        ("response", .obj [("message", .str ("Hello from " ++ serviceName ++ "!"))])]

/-- The `name = str(route.get("name") or f"route_{index + 1}")` computation
of the route-normalization loop. -/
def routeNameOf (index : Nat) (r : Obj) : String :=
  pyStr (if truthy (pyGet r "name") then pyGet r "name"
         else .str ("route_" ++ natRepr (index + 1)))

/-- Embedding of one iteration of the route-normalization loop of
`SimplePythonServiceTemplate.validate_requirements` (`index` is the
0-based `enumerate` index). -/
def normalizeRoute (index : Nat) (route : Value) : Except PyErr Value :=
  match route with
  | .obj r =>
    if allowedMethods.contains (pyUpper (pyStr (pyGetD r "method" (.str "GET")))) then
      if !truthy (pyGet r "path") || !startsWithSlash (pyStr (pyGet r "path")) then
        .error (.valueError "Each route must define a path starting with \x27/\x27.")
      else
        match pyInt (pyGetD r "status" (.int 200)) with
        | none => .error (.typeError "int() conversion failed")
        | some status =>
          .ok (.obj
            [("name", .str (routeNameOf index r)),
             ("identifier", .str
               (if dashToUnderscore (slugify (routeNameOf index r)) == "" then
                  "route_" ++ natRepr (index + 1)
                else dashToUnderscore (slugify (routeNameOf index r)))),
             ("method", .str (pyUpper (pyStr (pyGetD r "method" (.str "GET"))))),
             ("path", .str (pyStr (pyGet r "path"))),
             ("status", .int status),
             ("response",
               if truthy (pyGet r "response") then pyGet r "response"
               else .obj [("message", .str ("Response from " ++ routeNameOf index r))])])
    else
      .error (.valueError ("Unsupported HTTP method \x27" ++
        pyUpper (pyStr (pyGetD r "method" (.str "GET"))) ++
        "\x27. Allowed: " ++ String.intercalate ", " sortedAllowedMethods))
  | _ => .error (.valueError "Each route must be described by a mapping/dictionary.")

/-- The route-normalization loop over the whole route list. -/
def normalizeRoutes (index : Nat) : List Value → Except PyErr (List Value)
  | [] => .ok []
  | r :: rest =>
    match normalizeRoute index r with
    | .error e => .error e
    | .ok v =>
      match normalizeRoutes (index + 1) rest with
      | .error e => .error e
      | .ok vs => .ok (v :: vs)

/-- The `service_name` local of `validate_requirements`:
`str(requirements["service_name"])`. -/
def serviceNameOf (d : Obj) : String := pyStr (pyGet d "service_name")

/-- The `version` local of `validate_requirements`:
`str(requirements.get("version", "0.1.0"))`. -/
def versionOf (d : Obj) : String := pyStr (pyGetD d "version" (.str "0.1.0"))

/-- The `container_image` local of `validate_requirements`:
`requirements.get("container_image") or f"registry.example.com/{slug}:{version}"`. -/
def containerImageOf (d : Obj) : Value :=
  if truthy (pyGet d "container_image") then pyGet d "container_image"
  else .str ("registry.example.com/" ++ slugify (serviceNameOf d) ++ ":" ++ versionOf d)

/-- The ordered key/value pairs of the `normalized.update({...})` call. -/
def normalizedPairs (d : Obj) (nroutes : List Value) (port : Int) :
    List (String × Value) :=
  [("service_name", .str (serviceNameOf d)),
   ("description", .str (pyStr (pyGet d "description"))),
   ("version", .str (versionOf d)),
   ("container_image", .str (pyStr (containerImageOf d))),
   ("slug", .str (slugify (serviceNameOf d))),
   ("routes", .list nroutes),
   ("port", .int port)]

/-- Embedding of `SimplePythonServiceTemplate.validate_requirements`. -/
def validate_requirements (requirements : Obj) : Except PyErr Obj :=
  match ensureFields "simple-python-service" requirements
      ["service_name", "description"] with
  | .error e => .error e
  | .ok _ =>
    match (if truthy (pyGet requirements "routes")
           then pyList (pyGet requirements "routes") else .ok []) with
    | .error e => .error e
    | .ok routes =>
      match (if routes.isEmpty
             then .ok [defaultRoute (serviceNameOf requirements)]
             else normalizeRoutes 0 routes) with
      | .error e => .error e
      | .ok normalized_routes =>
        match pyInt (pyGetD requirements "port" (.int 8000)) with
        | none => .error (.typeError "int() conversion failed")
        | some port =>
          .ok (updateVals requirements
            (normalizedPairs requirements normalized_routes port))

/-! ### Properties of `slugify` -/
/-- The dash-separation invariant: no two adjacent dashes. -/
def DashSep (l : List Char) : Prop :=
  l.Chain' (fun a b => ¬(a = '-' ∧ b = '-'))

/-- A normalized route value for the C10 witness. -/
def c10route : Obj := [("name", .str "My Route"), ("path", .str "/x")]

/-- The value produced by normalizing `c10route`. -/
def c10v : Value :=
  .obj [("name", .str "My Route"), ("identifier", .str "my_route"),
        ("method", .str "GET"), ("path", .str "/x"), ("status", .int 200),
        ("response", .obj [("message", .str "Response from My Route")])]

/-- A method-free route for the C7 witness. -/
def c7route : Obj := [("path", .str "/x")]

/-- The value produced by normalizing `c7route`. -/
def c7v : Value :=
  .obj [("name", .str "route_1"), ("identifier", .str "route_1"),
        ("method", .str "GET"), ("path", .str "/x"), ("status", .int 200),
        ("response", .obj [("message", .str "Response from route_1")])]

/-- A concrete requirements mapping for the C2 witness. -/
def c2spec : Obj := [("service_name", .str "My App"), ("description", .str "d")]

/-- The normalized spec produced by validating `c2spec`. -/
def c2norm : Obj :=
  [("service_name", .str "My App"), ("description", .str "d"),
   ("version", .str "0.1.0"),
   ("container_image", .str "registry.example.com/my-app:0.1.0"),
   ("slug", .str "my-app"),
   ("routes", .list [.obj [("name", .str "root"), ("identifier", .str "root"),
     ("method", .str "GET"), ("path", .str "/"), ("status", .int 200),
     ("response", .obj [("message", .str "Hello from My App!")])]]),
   ("port", .int 8000)]

/-! ### Filesystem model -/
/-- A filesystem path as a list of segments. -/
abbrev FPath := List String

/-- Filesystem state: existing directories and files (path with content).
Operations only add or overwrite entries; nothing is ever removed, matching
the platform, which never deletes. -/
structure FS where
  dirs : List FPath
  files : List (FPath × String)
  deriving DecidableEq

/-- Does a file exist at `p`? -/
def FS.fileExists (fs : FS) (p : FPath) : Bool :=
  fs.files.any (fun f => f.1 == p)

/-- Does a directory exist at `p`? -/
def FS.dirExists (fs : FS) (p : FPath) : Bool :=
  fs.dirs.contains p

/-- Python `Path.exists()`: a file or directory is present. -/
def FS.pathExists (fs : FS) (p : FPath) : Bool :=
  fs.dirExists p || fs.fileExists p

/-- All non-empty prefixes of a path, shortest first. -/
def prefixesOf (p : FPath) : List FPath :=
  (List.range p.length).map (fun i => p.take (i + 1))

/-- Record a directory as existing (no duplicates). -/
def addDir (ds : List FPath) (q : FPath) : List FPath :=
  if ds.contains q then ds else ds ++ [q]

/-- Python `p.mkdir(parents=True, exist_ok=True)`. -/
def FS.mkdirParents (fs : FS) (p : FPath) : FS :=
  { fs with dirs := (prefixesOf p).foldl addDir fs.dirs }

/-- Write or overwrite a file (Python `Path.write_text`); the file map is
unordered, so the updated entry is simply brought to the front. -/
def FS.setFile (fs : FS) (p : FPath) (content : String) : FS :=
  { fs with files := (p, content) :: fs.files.filter (fun f => !(f.1 == p)) }

/-- Content of the file at `p`, when present. -/
def FS.readFile? (fs : FS) (p : FPath) : Option String :=
  (fs.files.find? (fun f => f.1 == p)).map (fun f => f.2)

/-- Embedding of `utils.write_text`: ensure the parent directory, then
write the file. -/
def write_text (fs : FS) (p : FPath) (content : String) : FS :=
  (fs.mkdirParents p.dropLast).setFile p content

/-- Render a path for error and log messages. -/
def pathStr (p : FPath) : String := String.intercalate "/" p

/-- A run of `n` spaces. -/
def spaces (n : Nat) : String := ⟨List.replicate n ' '⟩

mutual

/-- Python `json.dumps(v, indent=ind, ensure_ascii=False)` at nesting
depth `level` (string escaping elided). -/
def jsonDumps (ind level : Nat) : Value → String
  | .null => "null"
  | .bool b => if b then "true" else "false"
  | .int n => intRepr n
  | .str s => "\"" ++ s ++ "\""
  | .list [] => "[]"
  | .list (x :: xs) =>
    "[\n" ++ jsonItems ind (level + 1) (x :: xs) ++ "\n" ++
      spaces (ind * level) ++ "]"
  | .obj [] => "\x7b\x7d"
  | .obj (kv :: kvs) =>
    "\x7b\n" ++ jsonFields ind (level + 1) (kv :: kvs) ++ "\n" ++
      spaces (ind * level) ++ "\x7d"

/-- Comma-and-newline separated, indented JSON list items. -/
def jsonItems (ind level : Nat) : List Value → String
  | [] => ""
  | [x] => spaces (ind * level) ++ jsonDumps ind level x
  | x :: y :: rest =>
    spaces (ind * level) ++ jsonDumps ind level x ++ ",\n" ++
      jsonItems ind level (y :: rest)

/-- Comma-and-newline separated, indented JSON object fields. -/
def jsonFields (ind level : Nat) : List (String × Value) → String
  | [] => ""
  | [(k, v)] =>
    spaces (ind * level) ++ "\"" ++ k ++ "\": " ++ jsonDumps ind level v
  | (k, v) :: e :: rest =>
    spaces (ind * level) ++ "\"" ++ k ++ "\": " ++ jsonDumps ind level v ++
      ",\n" ++ jsonFields ind level (e :: rest)

end

/-- Embedding of `utils.write_json`. -/
def write_json (fs : FS) (p : FPath) (payload : Value) : FS :=
  write_text fs p (jsonDumps 2 0 payload ++ "\n")

/-! ### Generated file contents -/
/-- Item access `route[key]` on a route dictionary value. -/
def rGet (route : Value) (k : String) : Value :=
  match route with
  | .obj r => pyGet r k
  | _ => .null

/-- The `spec["routes"]` list. -/
def specRoutes (spec : Obj) : List Value :=
  match pyGet spec "routes" with
  | .list rs => rs
  | _ => []

mutual

/-- Python `json.dumps(v, ensure_ascii=False)` without indent
(string escaping elided). -/
def jsonCompact : Value → String
  | .null => "null"
  | .bool b => if b then "true" else "false"
  | .int n => intRepr n
  | .str s => "\"" ++ s ++ "\""
  | .list xs => "[" ++ jsonCompactList xs ++ "]"
  | .obj kvs => "\x7b" ++ jsonCompactObj kvs ++ "\x7d"

/-- Compact JSON list items. -/
def jsonCompactList : List Value → String
  | [] => ""
  | [x] => jsonCompact x
  | x :: y :: rest => jsonCompact x ++ ", " ++ jsonCompactList (y :: rest)

/-- Compact JSON object fields. -/
def jsonCompactObj : List (String × Value) → String
  | [] => ""
  | [(k, v)] => "\"" ++ k ++ "\": " ++ jsonCompact v
  | (k, v) :: e :: rest =>
    "\"" ++ k ++ "\": " ++ jsonCompact v ++ ", " ++ jsonCompactObj (e :: rest)

end

/-- Python `textwrap.indent(s, "    ")` (every generated line is
non-blank). -/
def indent4 (s : String) : String :=
  String.intercalate "\n" ((s.splitOn "\n").map (fun l => "    " ++ l))

/-- The per-route `payload` dictionary of `_render_routes_module`. -/
def routePayload (route : Value) : Value :=
  .obj [("name", rGet route "name"), ("identifier", rGet route "identifier"),
        ("method", rGet route "method"), ("path", rGet route "path"),
        ("status", rGet route "status"), ("response", rGet route "response")]

/-- Content of the generated `app/__init__.py`. -/
def renderInitPy (spec : Obj) : String :=
  "\"\"\"" ++ pyStr (pyGet spec "description") ++ "\"\"\"\n\nSERVICE_NAME = \"" ++
  pyStr (pyGet spec "service_name") ++ "\"\nVERSION = \"" ++
  pyStr (pyGet spec "version") ++ "\"\n"

/-- Content of the generated `app/routes.py`
(`_render_routes_module`). -/
def renderRoutesModule (spec : Obj) : String :=
  let blocks := (specRoutes spec).map
    (fun route => indent4 (jsonDumps 4 0 (routePayload route)))
  let lit0 := String.intercalate ",\n" blocks
  let lit := if lit0 == "" then lit0 else lit0 ++ "\n"
  "\"\"\"Route definitions for " ++ pyStr (pyGet spec "service_name") ++
  "\"\"\"\n" ++
  "from __future__ import annotations\n\nfrom typing import Dict, Tuple\n\n" ++
  "ROUTES = [\n" ++ lit ++ "]\n\n\n" ++
  "def get_route_map() -> Dict[Tuple[str, str], dict]:\n" ++
  "    return \x7b(route[\x27method\x27], route[\x27path\x27]): route for route in ROUTES\x7d\n"

/-- Content of the generated `app/server.py`
(`_render_server_module`). -/
def renderServerModule (spec : Obj) : String :=
  String.intercalate "\n"
    ["\"\"\"HTTP server for " ++ pyStr (pyGet spec "service_name") ++ "\"\"\"",
     "from __future__ import annotations",
     "",
     "import json",
     "from http.server import BaseHTTPRequestHandler, HTTPServer",
     "from typing import Dict, Tuple",
     "from urllib.parse import urlparse",
     "",
     "from .routes import get_route_map",
     "",
     "ROUTE_MAP = get_route_map()",
     "",
     "",
     "class DynamicRequestHandler(BaseHTTPRequestHandler):",
     "    \"\"\"Serve JSON responses for generated routes.\"\"\"",
     "",
     "    def _handle(self, method: str) -> None:",
     "        parsed = urlparse(self.path)",
     "        route = ROUTE_MAP.get((method, parsed.path))",
     "        if not route:",
     "            self.send_error(404, \"Not Found\")",
     "            return",
     "",
     "        body = json.dumps(route.get(\"response\", \x7b\x7d), ensure_ascii=False).encode(\"utf-8\")",
     "        status = int(route.get(\"status\", 200))",
     "        self.send_response(status)",
     "        self.send_header(\"Content-Type\", \"application/json\")",
     "        self.send_header(\"Content-Length\", str(len(body)))",
     "        self.end_headers()",
     "        self.wfile.write(body)",
     "",
     "    def do_GET(self) -> None:  # noqa: N802",
     "        self._handle(\"GET\")",
     "",
     "    def do_POST(self) -> None:  # noqa: N802",
     "        self._handle(\"POST\")",
     "",
     "    def do_PUT(self) -> None:  # noqa: N802",
     "        self._handle(\"PUT\")",
     "",
     "    def do_DELETE(self) -> None:  # noqa: N802",
     "        self._handle(\"DELETE\")",
     "",
     "    def log_message(self, format: str, *args: object) -> None:  # noqa: A003",
     "        return",
     "",
     "",
     "def create_server(host: str = \"0.0.0.0\", port: int = " ++
       pyStr (pyGet spec "port") ++ ") -> HTTPServer:",
     "    return HTTPServer((host, port), DynamicRequestHandler)",
     "",
     "",
     "def serve_forever(server: HTTPServer) -> None:",
     "    try:",
     "        server.serve_forever()",
     "    finally:",
     "        server.server_close()",
     "",
     "",
     "def run(host: str = \"0.0.0.0\", port: int = " ++
       pyStr (pyGet spec "port") ++ ") -> None:",
     "    server = create_server(host=host, port=port)",
     "    try:",
     "        serve_forever(server)",
     "    except KeyboardInterrupt:",
     "        server.shutdown()",
     "",
     "",
     "if __name__ == \"__main__\":",
     "    run()"] ++ "\n"

/-- Content of the generated `tests/test_routes.py` (`_render_tests`,
a constant). -/
def renderTests : String :=
  String.intercalate "\n"
    ["\"\"\"Automated tests for generated routes.\"\"\"",
     "from __future__ import annotations",
     "",
     "import http.client",
     "import json",
     "import threading",
     "import time",
     "import unittest",
     "from typing import Any",
     "",
     "from app.routes import ROUTES",
     "from app.server import create_server, serve_forever",
     "",
     "",
     "class RouteTestCase(unittest.TestCase):",
     "    server_thread: threading.Thread | None = None",
     "    server = None",
     "    port: int = 0",
     "",
     "    @classmethod",
     "    def setUpClass(cls) -> None:",
     "        cls.server = create_server(host=\"127.0.0.1\", port=0)",
     "        cls.port = cls.server.server_address[1]",
     "        cls.server_thread = threading.Thread(target=serve_forever, args=(cls.server,), daemon=True)",
     "        cls.server_thread.start()",
     "        time.sleep(0.2)",
     "",
     "    @classmethod",
     "    def tearDownClass(cls) -> None:",
     "        if cls.server:",
     "            cls.server.shutdown()",
     "        if cls.server_thread:",
     "            cls.server_thread.join(timeout=2)",
     "",
     "    def _request(self, method: str, path: str) -> tuple[int, dict[str, Any]]:",
     "        connection = http.client.HTTPConnection(\"127.0.0.1\", self.port, timeout=5)",
     "        connection.request(method, path)",
     "        response = connection.getresponse()",
     "        payload = response.read().decode(\"utf-8\")",
     "        connection.close()",
     "        body = json.loads(payload) if payload else \x7b\x7d",
     "        return response.status, body",
     "",
     "    def test_routes(self) -> None:",
     "        for route in ROUTES:",
     "            status, body = self._request(route[\"method\"], route[\"path\"])",
     "            self.assertEqual(status, route.get(\"status\", 200))",
     "            self.assertEqual(body, route.get(\"response\", \x7b\x7d))",
     "",
     "    def test_missing_route_returns_404(self) -> None:",
     "        status, _ = self._request(\"GET\", \"/__unknown__\")",
     "        self.assertEqual(status, 404)",
     "",
     "",
     "if __name__ == \"__main__\":",
     "    unittest.main()"] ++ "\n"

/-- Content of the generated `README.md` (`_write_project_readme`). -/
def renderReadme (spec : Obj) : String :=
  let routes_section := String.intercalate "\n" ((specRoutes spec).map
    (fun route =>
      "- **" ++ pyStr (rGet route "method") ++ " " ++ pyStr (rGet route "path") ++
      "** → returns " ++ jsonCompact (rGet route "response")))
  String.intercalate "\n"
    ["# " ++ pyStr (pyGet spec "service_name") ++ " Service",
     "",
     pyStr (pyGet spec "description"),
     "",
     "## Endpoints",
     "",
     (if routes_section == "" then "No routes defined." else routes_section),
     "",
     "## Local Development",
     "",
     "```bash",
     "python -m app.server",
     "```",
     "",
     "## Testing",
     "",
     "```bash",
     "python -m unittest discover",
     "```",
     "",
     "## Deployment",
     "",
     "Docker image: `" ++ pyStr (pyGet spec "container_image") ++ "`",
     "",
     "Apply the manifests in `k8s/` to deploy the service onto a Kubernetes cluster."] ++ "\n"

/-- Content of the generated `Dockerfile` (a constant). -/
def renderDockerfile : String :=
  "FROM python:3.11-slim\nWORKDIR /app\nCOPY app ./app\nCMD [\"python\", \"-m\", \"app.server\"]\n"

/-- Content of the generated `k8s/deployment.yaml`. -/
def renderDeploymentYaml (spec : Obj) : String :=
  let slug := pyStr (pyGet spec "slug")
  String.intercalate "\n"
    ["apiVersion: apps/v1",
     "kind: Deployment",
     "metadata:",
     "  name: " ++ slug,
     "  labels:",
     "    app: " ++ slug,
     "spec:",
     "  replicas: 1",
     "  selector:",
     "    matchLabels:",
     "      app: " ++ slug,
     "  template:",
     "    metadata:",
     "      labels:",
     "        app: " ++ slug,
     "    spec:",
     "      containers:",
     "        - name: " ++ slug,
     "          image: " ++ pyStr (pyGet spec "container_image"),
     "          command: [\"python\", \"-m\", \"app.server\"]",
     "          ports:",
     "            - containerPort: " ++ pyStr (pyGet spec "port")] ++ "\n"

/-- Content of the generated `k8s/service.yaml`. -/
def renderServiceYaml (spec : Obj) : String :=
  let slug := pyStr (pyGet spec "slug")
  String.intercalate "\n"
    ["apiVersion: v1",
     "kind: Service",
     "metadata:",
     "  name: " ++ slug,
     "  labels:",
     "    app: " ++ slug,
     "spec:",
     "  selector:",
     "    app: " ++ slug,
     "  ports:",
     "    - protocol: TCP",
     "      port: 80",
     "      targetPort: " ++ pyStr (pyGet spec "port"),
     "  type: ClusterIP"] ++ "\n"

/-- The per-route summaries of `_export_metadata`. -/
def metadataRouteSummaries (spec : Obj) : List Value :=
  (specRoutes spec).map (fun route =>
    .obj [("name", rGet route "name"), ("method", rGet route "method"),
          ("path", rGet route "path"), ("status", rGet route "status")])

/-- Embedding of `SimplePythonServiceTemplate._export_metadata`: the
metadata payload written to `project-metadata.json`. -/
def export_metadata (spec : Obj) : Value :=
  .obj [("template", .str "simple-python-service"),
        ("service_name", pyGet spec "service_name"),
        ("description", pyGet spec "description"),
        ("version", pyGet spec "version"),
        ("container_image", pyGet spec "container_image"),
        ("routes", .list (metadataRouteSummaries spec))]

/-- The key list of an object value (empty for non-objects). -/
def valueKeys : Value → List String
  | .obj kvs => kvs.map (fun kv => kv.1)
  | _ => []

/-- Embedding of `SimplePythonServiceTemplate.generate_project`.
Missing-key item access during rendering is modelled as a `None` value
(the generator is only ever invoked on validated specs, where every key
is present). -/
def generate_project (spec0 : Obj) (destination : FPath) (fs : FS) :
    Except PyErr FPath × FS :=
  match (if hasKey spec0 "slug" then .ok spec0
         else validate_requirements spec0 : Except PyErr Obj) with
  | .error e => (.error e, fs)
  | .ok spec =>
    let project_dir := destination ++ [pyStr (pyGet spec "slug") ++ "-service"]
    if fs.pathExists project_dir then
      (.error (.fileExists ("Target project directory already exists: " ++
        pathStr project_dir)), fs)
    else
      let app_dir := project_dir ++ ["app"]
      let tests_dir := project_dir ++ ["tests"]
      let k8s_dir := project_dir ++ ["k8s"]
      let fs1 := ((fs.mkdirParents app_dir).mkdirParents tests_dir).mkdirParents k8s_dir
      let fs2 := write_text fs1 (app_dir ++ ["__init__.py"]) (renderInitPy spec)
      let fs3 := write_text fs2 (app_dir ++ ["routes.py"]) (renderRoutesModule spec)
      let fs4 := write_text fs3 (app_dir ++ ["server.py"]) (renderServerModule spec)
      let fs5 := write_text fs4 (tests_dir ++ ["__init__.py"]) ""
      let fs6 := write_text fs5 (tests_dir ++ ["test_routes.py"]) renderTests
      let fs7 := write_text fs6 (project_dir ++ ["README.md"]) (renderReadme spec)
      let fs8 := write_text fs7 (project_dir ++ ["Dockerfile"]) renderDockerfile
      let fs9 := write_text fs8 (k8s_dir ++ ["deployment.yaml"]) (renderDeploymentYaml spec)
      let fs10 := write_text fs9 (k8s_dir ++ ["service.yaml"]) (renderServiceYaml spec)
      let fs11 := write_json fs10 (project_dir ++ ["project-metadata.json"]) (export_metadata spec)
      (.ok project_dir, fs11)

/-! ### Test runner, deployer, template manager, orchestrator -/
/-- Result of one external process invocation (the subprocess oracle's
answer: exit code and captured output). -/
structure ProcResult where
  returncode : Int
  stdout : String
  stderr : String

/-- Embedding of `test_runner.TestResult`. -/
structure TestResult where
  passed : Bool
  command : List String
  output : String
  return_code : Int

/-- Embedding of `deployer.DeploymentResult`. -/
structure DeploymentResult where
  applied : Bool
  manifest_files : List String
  message : String
  command_sequence : List (List String)

/-- Embedding of `TestRunner.run`; the subprocess is an oracle taking the
command and the working directory. -/
def testRunnerRun (python : String) (proc : List String → FPath → ProcResult)
    (project_path : FPath) : TestResult :=
  let command := [python, "-m", "unittest", "discover"]
  let completed := proc command project_path
  { passed := completed.returncode == 0
    command := command
    output := completed.stdout ++ completed.stderr
    return_code := completed.returncode }

/-- Lexicographic comparison of character lists by code point. -/
def charListLe : List Char → List Char → Bool
  | [], _ => true
  | _ :: _, [] => false
  | a :: as, b :: bs =>
    if a.toNat < b.toNat then true
    else if a.toNat = b.toNat then charListLe as bs
    else false

/-- Python string comparison (code-point lexicographic). -/
def strLe (a b : String) : Bool := charListLe a.toList b.toList

/-- Insert a string into a sorted list (ascending). -/
def insertSorted (s : String) : List String → List String
  | [] => [s]
  | x :: xs => if strLe s x then s :: x :: xs else x :: insertSorted s xs

/-- Python `sorted` on strings. -/
def sortStrings : List String → List String
  | [] => []
  | x :: xs => insertSorted x (sortStrings xs)

/-- Does a file name end in `.yaml` (the `glob("*.yaml")` pattern)? -/
def endsWithYaml (s : String) : Bool :=
  match s.toList.reverse with
  | 'l' :: 'm' :: 'a' :: 'y' :: '.' :: _ => true
  | _ => false

/-- The `manifest_dir.glob("*.yaml")` discovery, sorted: paths of files
directly under `dir` whose name ends in `.yaml`. -/
def globYaml (fs : FS) (dir : FPath) : List String :=
  sortStrings ((fs.files.filter (fun f =>
    f.1.dropLast == dir &&
      (match f.1.getLast? with
       | some nm => endsWithYaml nm
       | none => false))).map (fun f => pathStr f.1))

/-- The optional `-n <namespace>` flag (`if namespace:` truthiness). -/
def nsFlag : Option String → List String
  | some n => if n ≠ "" then ["-n", n] else []
  | none => []

/-- The `kubectl apply` command built for one manifest. -/
def cmdFor (kubectl : String) (ns : Option String) (m : String) :
    List String :=
  [kubectl, "apply", "-f", m] ++ nsFlag ns

/-- The manifest-apply loop of `KubernetesDeployer.deploy`: apply each
manifest in order, stopping at the first non-zero exit. -/
def applyLoop (kubectl : String) (runCmd : List String → ProcResult)
    (ns : Option String) (manifest_paths : List String) :
    List String → List (List String) → DeploymentResult
  | [], executed =>
    { applied := true, manifest_files := manifest_paths,
      message := "Applied Kubernetes manifests successfully.",
      command_sequence := executed }
  | m :: rest, executed =>
    let command := cmdFor kubectl ns m
    let completed := runCmd command
    if completed.returncode != 0 then
      { applied := false, manifest_files := manifest_paths,
        message := "kubectl failed for " ++ m ++ ": " ++
          pyStrip (if completed.stderr != "" then completed.stderr
                   else if completed.stdout != "" then completed.stdout
                   else "Unknown kubectl error"),
        command_sequence := executed ++ [command] }
    else applyLoop kubectl runCmd ns manifest_paths rest
      (executed ++ [command])

/-- Embedding of `KubernetesDeployer.deploy`; `kubectl` is the resolved
CLI path (`None` when `shutil.which` found nothing) and `runCmd` the
subprocess oracle. -/
def deploy (kubectl : Option String) (runCmd : List String → ProcResult)
    (project_path : FPath) (ns : Option String) (fs : FS) :
    DeploymentResult × FS :=
  let manifest_dir := project_path ++ ["k8s"]
  let manifest_paths := globYaml fs manifest_dir
  if manifest_paths.isEmpty then
    ({ applied := false, manifest_files := manifest_paths,
       message := "No Kubernetes manifests found.",
       command_sequence := [] }, fs)
  else
    match kubectl with
    | none =>
      let plan_path := manifest_dir ++ ["deployment-plan.txt"]
      let summary_lines :=
        ["kubectl command not found; generated dry-run deployment plan.",
         "Apply the following manifests manually:"] ++ manifest_paths
      ({ applied := false, manifest_files := manifest_paths,
         message := "kubectl not available. Plan written to " ++
           pathStr plan_path ++ ".",
         command_sequence := [] },
       fs.setFile plan_path (String.intercalate "\n" summary_lines ++ "\n"))
    | some k =>
      (applyLoop k runCmd ns manifest_paths manifest_paths [], fs)

/-- The registered template classes (only one exists). -/
inductive TemplateId where
  | simplePythonService
  deriving DecidableEq

/-- The class attribute `name`. -/
def TemplateId.templateName : TemplateId → String
  | .simplePythonService => "simple-python-service"

/-- The class attribute `description`. -/
def TemplateId.templateDescription : TemplateId → String
  | .simplePythonService =>
    "Lightweight Python service using the standard library HTTP server."

/-- The class attribute `version` (via `getattr(template, "version", None)`). -/
def TemplateId.templateVersion : TemplateId → Option String
  | .simplePythonService => some "1.0.0"

/-- Dispatch of `template.validate_requirements`. -/
def TemplateId.validate : TemplateId → Obj → Except PyErr Obj
  | .simplePythonService => validate_requirements

/-- Dispatch of `template.generate_project`. -/
def TemplateId.generate : TemplateId → Obj → FPath → FS → Except PyErr FPath × FS
  | .simplePythonService => generate_project

/-- Embedding of `templates.TEMPLATE_REGISTRY`. -/
def TEMPLATE_REGISTRY : List (String × TemplateId) :=
  [("simple-python-service", .simplePythonService)]

/-- Embedding of `template_manager.TemplateInfo`. -/
structure TemplateInfo where
  name : String
  description : String
  version : Option String
  deriving DecidableEq

/-- Embedding of `template_manager.TemplateManager` (its `_registry`). -/
structure TemplateManager where
  registry : List (String × TemplateId)
  deriving DecidableEq

/-- Embedding of `TemplateManager.__init__`:
`self._registry = registry or dict(TEMPLATE_REGISTRY)` — a falsy argument
(`None` or an empty mapping) falls back to the default registry. -/
def TemplateManager.make (registry : Option (List (String × TemplateId))) :
    TemplateManager :=
  ⟨match registry with
   | some r => if r.isEmpty then TEMPLATE_REGISTRY else r
   | none => TEMPLATE_REGISTRY⟩

/-- Embedding of `TemplateManager.list_templates`. -/
def TemplateManager.list_templates (m : TemplateManager) : List TemplateInfo :=
  m.registry.map (fun kv =>
    { name := kv.2.templateName, description := kv.2.templateDescription,
      version := kv.2.templateVersion })

/-- Registry lookup (`self._registry[name]`). -/
def lookupTemplate : List (String × TemplateId) → String → Option TemplateId
  | [], _ => none
  | (k, t) :: rest, name => if k = name then some t else lookupTemplate rest name

/-- Python `repr` of a list of strings, for the `KeyError` message. -/
def reprStringList (l : List String) : String :=
  "[" ++ String.intercalate ", " (l.map (fun s => "\x27" ++ s ++ "\x27")) ++ "]"

/-- Embedding of `TemplateManager.get_template`. -/
def TemplateManager.get_template (m : TemplateManager) (name : String) :
    Except PyErr TemplateId :=
  match lookupTemplate m.registry name with
  | some t => .ok t
  | none =>
    .error (.keyError ("Unknown template \x27" ++ name ++ "\x27. Available: " ++
      reprStringList (sortStrings (m.registry.map (fun kv => kv.1)))))

/-- Embedding of `orchestrator.PipelineResult`. -/
structure PipelineResult where
  project_path : FPath
  template_name : String
  requirements : Obj
  test_result : Option TestResult
  deployment_result : Option DeploymentResult

/-- Embedding of `K8sAutoDevPlatform.run_pipeline`.  External processes
are oracles: `python`/`testProc` stand for the test runner's interpreter
and subprocess call, `kubectl`/`deployProc` for the deployer's resolved
CLI and subprocess call. -/
def run_pipeline (python : String) (testProc : List String → FPath → ProcResult)
    (kubectl : Option String) (deployProc : List String → ProcResult)
    (manager : TemplateManager) (requirements : Obj) (template_name : String)
    (output_dir : FPath) (run_tests deploy : Bool) (ns : Option String)
    (fs : FS) : Except PyErr PipelineResult × FS :=
  let fs0 := fs.mkdirParents output_dir
  match manager.get_template template_name with
  | .error e => (.error e, fs0)
  | .ok template =>
    match template.validate requirements with
    | .error e => (.error e, fs0)
    | .ok validated =>
      match template.generate validated output_dir fs0 with
      | (.error e, fs1) => (.error e, fs1)
      | (.ok project_path, fs1) =>
        let test_result :=
          if run_tests then some (testRunnerRun python testProc project_path)
          else none
        let should_deploy := deploy &&
          (match test_result with
           | none => true
           | some t => t.passed)
        if should_deploy then
          let dr := K8sAutoDev.deploy kubectl deployProc project_path ns fs1
          (.ok { project_path := project_path,
                 template_name := template.templateName,
                 requirements := validated, test_result := test_result,
                 deployment_result := some dr.1 }, dr.2)
        else
          (.ok { project_path := project_path,
                 template_name := template.templateName,
                 requirements := validated, test_result := test_result,
                 deployment_result := none }, fs1)

/-- A concrete full pipeline run (passing tests, no cluster CLI) for the
C1 witness. -/
def c1run : Except PyErr PipelineResult × FS :=
  run_pipeline "python3" (fun _ _ => ⟨0, "", ""⟩) none (fun _ => ⟨0, "", ""⟩)
    (TemplateManager.make none) c2spec "simple-python-service" ["out"]
    true true none ⟨[], []⟩

/-- The pipeline result of `c1run`. -/
def c1res : PipelineResult :=
  match c1run.1 with
  | .ok r => r
  | .error _ => ⟨[], "", [], none, none⟩

/-- The filesystem after one successful generation, for the C4 witness. -/
def c4fs1 : FS := (generate_project c2norm ["out"] ⟨[], []⟩).2

/-- A two-manifest filesystem for the C6 witness. -/
def c6fs : FS :=
  ⟨[["p"], ["p", "k8s"]],
   [(["p", "k8s", "a.yaml"], "x"), (["p", "k8s", "b.yaml"], "y")]⟩

/-- A CLI oracle that fails exactly on the second manifest. -/
def c6fail (c : List String) : ProcResult :=
  if c.contains "p/k8s/b.yaml" then ⟨1, "", "boom\n"⟩ else ⟨0, "", ""⟩

/-- A CLI oracle that always succeeds. -/
def c6ok (_ : List String) : ProcResult := ⟨0, "", ""⟩

theorem isSlugChar_ne_dash {c : Char} (h : isSlugChar c = true) : c ≠ '-' := by
  intro hc
  subst hc
  exact absurd h (by decide)

theorem mem_collapseRuns {l : List Char} {b : Bool} {c : Char}
    (h : c ∈ collapseRuns b l) : isSlugChar c = true ∨ c = '-' := by
  induction l generalizing b with
  | nil => simp [collapseRuns] at h
  | cons a rest ih =>
    rw [collapseRuns] at h
    by_cases ha : isSlugChar a = true
    · rw [if_pos ha] at h
      rcases List.mem_cons.mp h with h | h
      · exact Or.inl (h ▸ ha)
      · exact ih h
    · rw [if_neg ha] at h
      cases b with
      | true =>
        rw [if_pos rfl] at h
        exact ih h
      | false =>
        rw [if_neg (by simp)] at h
        rcases List.mem_cons.mp h with h | h
        · exact Or.inr h
        · exact ih h

theorem collapseRuns_true_head {l : List Char} {c : Char}
    (h : (collapseRuns true l).head? = some c) : isSlugChar c = true := by
  induction l with
  | nil => simp [collapseRuns] at h
  | cons a rest ih =>
    rw [collapseRuns] at h
    by_cases ha : isSlugChar a = true
    · rw [if_pos ha, List.head?_cons, Option.some.injEq] at h
      exact h ▸ ha
    · rw [if_neg ha, if_pos rfl] at h
      exact ih h

theorem dashSep_collapseRuns (b : Bool) (l : List Char) :
    DashSep (collapseRuns b l) := by
  induction l generalizing b with
  | nil => simp [collapseRuns, DashSep]
  | cons a rest ih =>
    rw [collapseRuns]
    by_cases ha : isSlugChar a = true
    · rw [if_pos ha]
      exact List.chain'_cons'.mpr
        ⟨fun y _ hc => isSlugChar_ne_dash ha hc.1, ih false⟩
    · rw [if_neg ha]
      cases b with
      | true =>
        rw [if_pos rfl]
        exact ih true
      | false =>
        rw [if_neg (by simp)]
        refine List.chain'_cons'.mpr ⟨fun y hy hc => ?_, ih true⟩
        exact isSlugChar_ne_dash (collapseRuns_true_head (Option.mem_def.mp hy)) hc.2

theorem collapseRuns_eq_self {l : List Char}
    (hmem : ∀ c ∈ l, isSlugChar c = true ∨ c = '-') (hsep : DashSep l) :
    collapseRuns false l = l ∧
      (l.head? ≠ some '-' → collapseRuns true l = l) := by
  induction l with
  | nil => exact ⟨rfl, fun _ => rfl⟩
  | cons a rest ih =>
    have hsep' := List.chain'_cons'.mp hsep
    obtain ⟨ih1, ih2⟩ := ih (fun c hc => hmem c (List.mem_cons_of_mem a hc)) hsep'.2
    rcases hmem a (List.mem_cons_self a rest) with ha | ha
    · constructor
      · rw [collapseRuns, if_pos ha, ih1]
      · intro _
        rw [collapseRuns, if_pos ha, ih1]
    · subst ha
      constructor
      · rw [collapseRuns, if_neg (by decide), if_neg (by simp)]
        have hh : rest.head? ≠ some '-' := by
          intro hh
          exact (hsep'.1 '-' (Option.mem_def.mpr hh)) ⟨rfl, rfl⟩
        rw [ih2 hh]
      · intro hhead
        exact absurd rfl hhead

theorem stripList_eq_rdrop (p : Char → Bool) (l : List Char) :
    stripList p l = List.rdropWhile p (l.dropWhile p) := rfl

theorem stripList_subset (p : Char → Bool) (l : List Char) :
    stripList p l ⊆ l := by
  rw [stripList_eq_rdrop]
  intro c hc
  exact (List.dropWhile_suffix p).subset
    (( List.rdropWhile_prefix p (l.dropWhile p)).subset hc)

theorem dashSep_stripList (p : Char → Bool) {l : List Char} (h : DashSep l) :
    DashSep (stripList p l) := by
  rw [stripList_eq_rdrop]
  exact List.Chain'.prefix (List.Chain'.suffix h (List.dropWhile_suffix p))
    ( List.rdropWhile_prefix p (l.dropWhile p))

theorem head?_dropWhile_false (p : Char → Bool) (l : List Char) {c : Char}
    (h : (l.dropWhile p).head? = some c) : p c = false := by
  induction l with
  | nil => simp at h
  | cons a rest ih =>
    rw [List.dropWhile_cons] at h
    by_cases ha : p a = true
    · rw [if_pos ha] at h
      exact ih h
    · rw [if_neg ha] at h
      rw [List.head?_cons, Option.some.injEq] at h
      exact Bool.eq_false_iff.mpr (h ▸ ha)

theorem stripList_head_false (p : Char → Bool) (l : List Char) {c : Char}
    (h : (stripList p l).head? = some c) : p c = false := by
  rw [stripList_eq_rdrop] at h
  obtain ⟨t, ht⟩ := List.rdropWhile_prefix p (l.dropWhile p)
  apply head?_dropWhile_false p l (c := c)
  cases hX : List.rdropWhile p (l.dropWhile p) with
  | nil =>
    rw [hX] at h
    exact absurd h (by simp)
  | cons a r =>
    rw [hX] at h ht
    rw [← ht]
    simpa using h

theorem stripList_getLast_false (p : Char → Bool) (l : List Char) {c : Char}
    (h : (stripList p l).getLast? = some c) : p c = false := by
  rw [stripList_eq_rdrop] at h
  have hne : List.rdropWhile p (l.dropWhile p) ≠ [] := by
    intro hn
    rw [hn] at h
    simp at h
  have hlast := List.rdropWhile_last_not p (l.dropWhile p) hne
  rw [List.getLast?_eq_getLast_of_ne_nil hne, Option.some.injEq] at h
  exact Bool.eq_false_iff.mpr (h ▸ hlast)

theorem stripList_eq_self {p : Char → Bool} {l : List Char}
    (hh : ∀ c, l.head? = some c → p c = false)
    (hl : ∀ c, l.getLast? = some c → p c = false) :
    stripList p l = l := by
  have h1 : l.dropWhile p = l := by
    cases l with
    | nil => rfl
    | cons a rest =>
      rw [List.dropWhile_cons, if_neg (by simp [hh a rfl])]
  rw [stripList_eq_rdrop, h1, List.rdropWhile_eq_self_iff]
  intro hne
  rw [hl (l.getLast hne) (List.getLast?_eq_getLast_of_ne_nil hne)]
  simp

theorem slugifyCore_chars {s : List Char} {c : Char} (h : c ∈ slugifyCore s) :
    isSlugChar c = true ∨ c = '-' :=
  mem_collapseRuns (stripList_subset _ _ h)

theorem slugifyCore_dashSep (s : List Char) : DashSep (slugifyCore s) :=
  dashSep_stripList _ (dashSep_collapseRuns false _)

theorem slugifyCore_head (s : List Char) : (slugifyCore s).head? ≠ some '-' := by
  intro h
  have := stripList_head_false _ _ h
  simp at this

theorem slugifyCore_getLast (s : List Char) :
    (slugifyCore s).getLast? ≠ some '-' := by
  intro h
  have := stripList_getLast_false _ _ h
  simp at this

theorem asciiLower_fixed {c : Char} (h : isSlugChar c = true ∨ c = '-') :
    asciiLower c = c := by
  have hc : ¬(65 ≤ c.toNat ∧ c.toNat ≤ 90) := by
    rcases h with h | h
    · simp only [isSlugChar, Bool.or_eq_true, Bool.and_eq_true,
        decide_eq_true_eq] at h
      omega
    · subst h
      decide
  rw [asciiLower, if_neg hc]

theorem isPySpace_false {c : Char} (h : isSlugChar c = true ∨ c = '-') :
    isPySpace c = false := by
  have hc : 45 ≤ c.toNat := by
    rcases h with h | h
    · simp only [isSlugChar, Bool.or_eq_true, Bool.and_eq_true,
        decide_eq_true_eq] at h
      omega
    · subst h
      decide
  rw [isPySpace]
  simp only [Bool.or_eq_false_iff, beq_eq_false_iff_ne]
  refine ⟨⟨⟨⟨⟨?_, ?_⟩, ?_⟩, ?_⟩, ?_⟩, ?_⟩
  all_goals
    intro hh
    subst hh
    exact absurd hc (by decide)

theorem map_asciiLower_fixed {l : List Char}
    (h : ∀ c ∈ l, isSlugChar c = true ∨ c = '-') :
    l.map asciiLower = l := by
  induction l with
  | nil => rfl
  | cons a rest ih =>
    rw [List.map_cons, asciiLower_fixed (h a (List.mem_cons_self a rest)),
      ih (fun c hc => h c (List.mem_cons_of_mem a hc))]

theorem slugifyCore_idem (s : List Char) :
    slugifyCore (slugifyCore s) = slugifyCore s := by
  have hchars : ∀ c ∈ slugifyCore s, isSlugChar c = true ∨ c = '-' :=
    fun _ hc => slugifyCore_chars hc
  have h1 : stripList isPySpace (slugifyCore s) = slugifyCore s :=
    stripList_eq_self
      (fun c hc => isPySpace_false (hchars c
        (List.mem_of_mem_head? (Option.mem_def.mpr hc))))
      (fun c hc => isPySpace_false (hchars c
        (List.mem_of_mem_getLast? (Option.mem_def.mpr hc))))
  show stripList (fun c => c == '-')
      (collapseRuns false ((stripList isPySpace (slugifyCore s)).map asciiLower)) =
    slugifyCore s
  rw [h1, map_asciiLower_fixed hchars,
    (collapseRuns_eq_self hchars (slugifyCore_dashSep s)).1]
  refine stripList_eq_self (fun c hc => ?_) (fun c hc => ?_)
  · rw [beq_eq_false_iff_ne]
    intro hd
    subst hd
    exact slugifyCore_head s hc
  · rw [beq_eq_false_iff_ne]
    intro hd
    subst hd
    exact slugifyCore_getLast s hc

theorem toList_mk (l : List Char) : (⟨l⟩ : String).toList = l := rfl

theorem slugify_def (s : String) :
    slugify s =
      if (slugifyCore s.toList).isEmpty then "project"
      else ⟨slugifyCore s.toList⟩ := rfl

theorem slugify_toList (s : String) :
    (slugify s).toList =
      if (slugifyCore s.toList).isEmpty then "project".toList
      else slugifyCore s.toList := by
  rw [slugify_def]
  by_cases h : (slugifyCore s.toList).isEmpty
  · rw [if_pos h, if_pos h]
  · rw [if_neg h, if_neg h, toList_mk]

theorem slugify_idem (s : String) : slugify (slugify s) = slugify s := by
  by_cases h : (slugifyCore s.toList).isEmpty
  · rw [slugify_def s, if_pos h]
    decide
  · rw [slugify_def s, if_neg h, slugify_def ⟨slugifyCore s.toList⟩, toList_mk,
      slugifyCore_idem, if_neg h]

theorem slugify_ne_empty (s : String) : slugify s ≠ "" := by
  rw [slugify_def]
  by_cases h : (slugifyCore s.toList).isEmpty
  · rw [if_pos h]
    decide
  · rw [if_neg h]
    intro hc
    have h2 : slugifyCore s.toList = [] := congrArg String.toList hc
    rw [h2] at h
    exact h rfl

theorem slugify_chars (s : String) :
    ∀ c ∈ (slugify s).toList, isSlugChar c = true ∨ c = '-' := by
  rw [slugify_toList]
  by_cases h : (slugifyCore s.toList).isEmpty
  · rw [if_pos h]
    decide
  · rw [if_neg h]
    exact fun _ hc => slugifyCore_chars hc

theorem slugify_head_ne_dash (s : String) :
    (slugify s).toList.head? ≠ some '-' := by
  rw [slugify_toList]
  by_cases h : (slugifyCore s.toList).isEmpty
  · rw [if_pos h]
    decide
  · rw [if_neg h]
    exact slugifyCore_head s.toList

theorem slugify_getLast_ne_dash (s : String) :
    (slugify s).toList.getLast? ≠ some '-' := by
  rw [slugify_toList]
  by_cases h : (slugifyCore s.toList).isEmpty
  · rw [if_pos h]
    decide
  · rw [if_neg h]
    exact slugifyCore_getLast s.toList

theorem pyLower_slugify (s : String) : pyLower (slugify s) = slugify s := by
  show (⟨(slugify s).toList.map asciiLower⟩ : String) = slugify s
  rw [map_asciiLower_fixed (slugify_chars s)]
  exact String.ext rfl

/-- C5: `slugify` is idempotent, its output is lower-case and contains only
characters in `[a-z0-9-]`, it never starts or ends with a dash, and the
all-symbol input `"!!!"` maps to `"project"`. -/
theorem C5_slugify_props (s : String) :
    slugify (slugify s) = slugify s ∧
    (∀ c ∈ (slugify s).toList, isSlugChar c = true ∨ c = '-') ∧
    pyLower (slugify s) = slugify s ∧
    (slugify s).toList.head? ≠ some '-' ∧
    (slugify s).toList.getLast? ≠ some '-' ∧
    slugify "!!!" = "project" :=
  ⟨slugify_idem s, slugify_chars s, pyLower_slugify s,
    slugify_head_ne_dash s, slugify_getLast_ne_dash s, by decide⟩

/-! ### Nonemptiness facts used by claims C2 and C10 -/
theorem natReprAux_ne_nil (fuel n : Nat) : natReprAux (fuel + 1) n ≠ [] := by
  rw [natReprAux]
  by_cases h : n < 10
  · rw [if_pos h]
    simp
  · rw [if_neg h]
    simp

theorem natRepr_ne_empty (n : Nat) : natRepr n ≠ "" := by
  intro h
  exact natReprAux_ne_nil n n (congrArg String.toList h)

theorem intRepr_ne_empty (n : Int) : intRepr n ≠ "" := by
  rw [intRepr]
  by_cases h : n < 0
  · rw [if_pos h]
    intro hc
    exact absurd (congrArg String.toList hc) (by simp)
  · rw [if_neg h]
    exact natRepr_ne_empty n.natAbs

theorem ne_empty_of_toList_cons {s : String} {c : Char} {l : List Char}
    (h : s.toList = c :: l) : s ≠ "" := by
  intro hc
  rw [hc] at h
  exact absurd h (by simp)

theorem truthy_pyStr_ne_empty {v : Value} (h : truthy v = true) :
    pyStr v ≠ "" := by
  cases v with
  | null => simp [truthy] at h
  | bool b =>
    cases b with
    | true => decide
    | false => simp [truthy] at h
  | int n => exact intRepr_ne_empty n
  | str s =>
    rw [truthy, bne_iff_ne] at h
    exact h
  | list xs =>
    apply ne_empty_of_toList_cons (c := '[')
      (l := (pyReprList xs ++ "]").toList)
    show ("[" ++ (pyReprList xs ++ "]")).toList = _
    rw [show ("[" ++ (pyReprList xs ++ "]")).toList =
      '[' :: (pyReprList xs ++ "]").toList from
        congrArg (fun t => t) (by rw [String.toList, String.data_append]; rfl)]
  | obj kvs =>
    apply ne_empty_of_toList_cons (c := '\x7b')
      (l := (pyReprObj kvs ++ "\x7d").toList)
    show ("\x7b" ++ (pyReprObj kvs ++ "\x7d")).toList = _
    rw [show ("\x7b" ++ (pyReprObj kvs ++ "\x7d")).toList =
      '\x7b' :: (pyReprObj kvs ++ "\x7d").toList from
        congrArg (fun t => t) (by rw [String.toList, String.data_append]; rfl)]

theorem dashToUnderscore_ne_empty {s : String} (h : s ≠ "") :
    dashToUnderscore s ≠ "" := by
  intro hc
  apply h
  have h2 : s.toList.map (fun c => if c == '-' then '_' else c) = [] :=
    congrArg String.toList hc
  rw [List.map_eq_nil_iff] at h2
  exact String.ext h2

/-! ### Route normalization: claims C10 and C7 -/
/-- C10: `slugify` always returns a non-empty string, so for every route
that normalizes successfully the stored identifier is exactly the
slugified name with dashes replaced by underscores; the
`or "route_{index}"` fallback branch is dead. -/
theorem C10_identifier_no_fallback (index : Nat) (r : Obj) (v : Value)
    (h : normalizeRoute index (.obj r) = .ok v) :
    (∀ s : String, slugify s ≠ "") ∧
    ∃ fields, v = .obj fields ∧
      getVal? fields "name" = some (.str (routeNameOf index r)) ∧
      getVal? fields "identifier" =
        some (.str (dashToUnderscore (slugify (routeNameOf index r)))) := by
  refine ⟨slugify_ne_empty, ?_⟩
  have hne : (dashToUnderscore (slugify (routeNameOf index r)) == "") = false :=
    beq_eq_false_iff_ne.mpr
      (dashToUnderscore_ne_empty (slugify_ne_empty (routeNameOf index r)))
  rw [normalizeRoute] at h
  by_cases h1 : allowedMethods.contains
      (pyUpper (pyStr (pyGetD r "method" (.str "GET")))) = true
  case neg =>
    rw [if_neg h1] at h
    exact absurd h (by simp)
  rw [if_pos h1] at h
  by_cases h2 : (!truthy (pyGet r "path") ||
      !startsWithSlash (pyStr (pyGet r "path"))) = true
  case pos =>
    rw [if_pos h2] at h
    exact absurd h (by simp)
  rw [if_neg h2] at h
  cases h3 : pyInt (pyGetD r "status" (.int 200)) with
  | none =>
    rw [h3] at h
    exact absurd h (by simp)
  | some status =>
    rw [h3, Except.ok.injEq] at h
    subst h
    exact ⟨_, rfl, by simp [getVal?], by simp [getVal?, hne]⟩

theorem C10_witness :
    (∀ s : String, slugify s ≠ "") ∧
    ∃ fields, c10v = .obj fields ∧
      getVal? fields "name" = some (.str (routeNameOf 0 c10route)) ∧
      getVal? fields "identifier" =
        some (.str (dashToUnderscore (slugify (routeNameOf 0 c10route)))) :=
  C10_identifier_no_fallback 0 c10route c10v (by rfl)

/-- C7: the route method defaults to `"GET"` when absent and is stored
upper-cased; when the upper-cased method is not in the allowed set the
route is rejected with a `ValueError` whose message enumerates the allowed
methods, and in particular `"PATCH"` is rejected with that message. -/
theorem C7_method_validation (index : Nat) (r : Obj) :
    (∀ v, normalizeRoute index (.obj r) = .ok v →
       ∃ fields, v = .obj fields ∧
         getVal? fields "method" =
           some (.str (pyUpper (pyStr (pyGetD r "method" (.str "GET")))))) ∧
    (hasKey r "method" = false →
       pyUpper (pyStr (pyGetD r "method" (.str "GET"))) = "GET") ∧
    (allowedMethods.contains
        (pyUpper (pyStr (pyGetD r "method" (.str "GET")))) = false →
       normalizeRoute index (.obj r) =
         .error (.valueError ("Unsupported HTTP method \x27" ++
           pyUpper (pyStr (pyGetD r "method" (.str "GET"))) ++
           "\x27. Allowed: " ++ String.intercalate ", " sortedAllowedMethods))) ∧
    normalizeRoute 0 (.obj [("method", .str "PATCH"), ("path", .str "/x")]) =
      .error (.valueError
        "Unsupported HTTP method \x27PATCH\x27. Allowed: DELETE, GET, POST, PUT") := by
  refine ⟨?_, ?_, ?_, by rfl⟩
  · intro v h
    rw [normalizeRoute] at h
    by_cases h1 : allowedMethods.contains
        (pyUpper (pyStr (pyGetD r "method" (.str "GET")))) = true
    case neg =>
      rw [if_neg h1] at h
      exact absurd h (by simp)
    rw [if_pos h1] at h
    by_cases h2 : (!truthy (pyGet r "path") ||
        !startsWithSlash (pyStr (pyGet r "path"))) = true
    case pos =>
      rw [if_pos h2] at h
      exact absurd h (by simp)
    rw [if_neg h2] at h
    cases h3 : pyInt (pyGetD r "status" (.int 200)) with
    | none =>
      rw [h3] at h
      exact absurd h (by simp)
    | some status =>
      rw [h3, Except.ok.injEq] at h
      subst h
      exact ⟨_, rfl, by simp [getVal?]⟩
  · intro h
    cases hm : getVal? r "method" with
    | some w =>
      rw [hasKey, hm] at h
      exact absurd h (by simp)
    | none =>
      rw [pyGetD, hm]
      decide
  · intro h
    rw [normalizeRoute]
    split
    · rename_i hc
      rw [h] at hc
      exact absurd hc (by simp)
    · rfl

theorem C7_witness :
    (∃ fields, c7v = .obj fields ∧
       getVal? fields "method" =
         some (.str (pyUpper (pyStr (pyGetD c7route "method" (.str "GET")))))) ∧
    pyUpper (pyStr (pyGetD c7route "method" (.str "GET"))) = "GET" ∧
    normalizeRoute 3 (.obj [("method", .str "PATCH")]) =
      .error (.valueError ("Unsupported HTTP method \x27" ++
        pyUpper (pyStr (pyGetD [("method", Value.str "PATCH")] "method" (.str "GET"))) ++
        "\x27. Allowed: " ++ String.intercalate ", " sortedAllowedMethods)) :=
  ⟨(C7_method_validation 0 c7route).1 c7v (by rfl),
   (C7_method_validation 0 c7route).2.1 (by rfl),
   (C7_method_validation 3 [("method", .str "PATCH")]).2.2.1 (by rfl)⟩

/-! ### Dictionary lemmas -/
theorem getVal?_setVal_self (d : Obj) (k : String) (v : Value) :
    getVal? (setVal d k v) k = some v := by
  induction d with
  | nil => simp [setVal, getVal?]
  | cons kv rest ih =>
    obtain ⟨k2, w⟩ := kv
    rw [setVal]
    by_cases h : k2 = k
    · rw [if_pos h, getVal?, if_pos h]
    · rw [if_neg h, getVal?, if_neg h]
      exact ih

theorem getVal?_setVal_ne {k k2 : String} (d : Obj) (v : Value) (h : k ≠ k2) :
    getVal? (setVal d k v) k2 = getVal? d k2 := by
  induction d with
  | nil =>
    show (if k = k2 then some v else getVal? [] k2) = getVal? [] k2
    rw [if_neg h]
  | cons kv rest ih =>
    obtain ⟨k3, w⟩ := kv
    rw [setVal]
    by_cases h3 : k3 = k
    · have hne : k3 ≠ k2 := fun hh => h (h3 ▸ hh)
      rw [if_pos h3, getVal?, if_neg hne, getVal?, if_neg hne]
    · rw [if_neg h3, getVal?, getVal?]
      by_cases h2 : k3 = k2
      · rw [if_pos h2, if_pos h2]
      · rw [if_neg h2, if_neg h2]
        exact ih

theorem setVal_eq_self {d : Obj} {k : String} {v : Value}
    (h : getVal? d k = some v) : setVal d k v = d := by
  induction d with
  | nil => simp [getVal?] at h
  | cons kv rest ih =>
    obtain ⟨k2, w⟩ := kv
    rw [getVal?] at h
    rw [setVal]
    by_cases h2 : k2 = k
    · rw [if_pos h2] at h ⊢
      rw [Option.some.injEq] at h
      rw [h]
    · rw [if_neg h2] at h ⊢
      rw [ih h]

theorem updateVals_nil (d : Obj) : updateVals d [] = d := rfl

theorem updateVals_cons (d : Obj) (kv : String × Value)
    (rest : List (String × Value)) :
    updateVals d (kv :: rest) = updateVals (setVal d kv.1 kv.2) rest := rfl

theorem updateVals_eq_self {d : Obj} {kvs : List (String × Value)}
    (h : ∀ kv ∈ kvs, getVal? d kv.1 = some kv.2) : updateVals d kvs = d := by
  induction kvs with
  | nil => rfl
  | cons kv rest ih =>
    rw [updateVals_cons, setVal_eq_self (h kv (List.mem_cons_self _ _))]
    exact ih (fun kv2 h2 => h kv2 (List.mem_cons_of_mem _ h2))

theorem getVal?_updateVals_skip {kvs : List (String × Value)} {k : String}
    (d : Obj) (h : ∀ kv ∈ kvs, kv.1 ≠ k) :
    getVal? (updateVals d kvs) k = getVal? d k := by
  induction kvs generalizing d with
  | nil => rfl
  | cons kv rest ih =>
    rw [updateVals_cons,
      ih (setVal d kv.1 kv.2) (fun kv2 h2 => h kv2 (List.mem_cons_of_mem _ h2)),
      getVal?_setVal_ne _ _ (h kv (List.mem_cons_self _ _))]

/-! ### Support lemmas for validation idempotence -/
theorem append_ne_empty_left {a : String} (b : String) (h : a ≠ "") :
    a ++ b ≠ "" := by
  intro hc
  apply h
  have h2 : a.data ++ b.data = [] := by
    rw [← String.data_append]
    exact congrArg String.data hc
  exact String.ext (List.append_eq_nil.mp h2).1

theorem truthy_str_of_ne {s : String} (h : s ≠ "") : truthy (.str s) = true := by
  rw [truthy]
  exact bne_iff_ne.mpr h

theorem startsWithSlash_ne_empty {s : String} (h : startsWithSlash s = true) :
    s ≠ "" := by
  rw [startsWithSlash] at h
  cases hs : s.toList with
  | nil =>
    rw [hs] at h
    exact absurd h (by simp)
  | cons c rest => exact ne_empty_of_toList_cons hs

theorem routeNameOf_ne_empty (index : Nat) (r : Obj) :
    routeNameOf index r ≠ "" := by
  rw [routeNameOf]
  by_cases h : truthy (pyGet r "name") = true
  · rw [if_pos h]
    exact truthy_pyStr_ne_empty h
  · rw [if_neg h]
    exact append_ne_empty_left _ (by decide)

theorem containerImageOf_pyStr_ne_empty (d : Obj) :
    pyStr (containerImageOf d) ≠ "" := by
  rw [containerImageOf]
  by_cases h : truthy (pyGet d "container_image") = true
  · rw [if_pos h]
    exact truthy_pyStr_ne_empty h
  · rw [if_neg h]
    exact append_ne_empty_left _
      (append_ne_empty_left _ (append_ne_empty_left _ (by decide)))

theorem char_toNat_ofNat {n : Nat} (h : n < 55296) :
    (Char.ofNat n).toNat = n := by
  rw [Char.ofNat, dif_pos (Or.inl h : n.isValidChar)]
  rfl

theorem asciiUpper_idem (c : Char) : asciiUpper (asciiUpper c) = asciiUpper c := by
  by_cases h : 97 ≤ c.toNat ∧ c.toNat ≤ 122
  · have h1 : asciiUpper c = Char.ofNat (c.toNat - 32) := by
      rw [asciiUpper, if_pos h]
    have ht : (Char.ofNat (c.toNat - 32)).toNat = c.toNat - 32 :=
      char_toNat_ofNat (by omega)
    rw [h1, asciiUpper, if_neg (by rw [ht]; omega)]
  · have h1 : asciiUpper c = c := by rw [asciiUpper, if_neg h]
    rw [h1, h1]

theorem pyUpper_idem (s : String) : pyUpper (pyUpper s) = pyUpper s := by
  show (⟨((⟨s.toList.map asciiUpper⟩ : String)).toList.map asciiUpper⟩ : String) = _
  rw [toList_mk, List.map_map]
  have : ∀ c ∈ s.toList, (asciiUpper ∘ asciiUpper) c = asciiUpper c :=
    fun c _ => asciiUpper_idem c
  rw [List.map_congr_left this]
  rfl

theorem normalizeRoute_ok_self (index : Nat) {nm mth pth : String}
    {status : Int} {resp : Value}
    (hnm : nm ≠ "") (hmth : pyUpper mth = mth)
    (h1 : allowedMethods.contains mth = true)
    (hpth : startsWithSlash pth = true)
    (hresp : truthy resp = true) :
    normalizeRoute index (.obj
      [("name", .str nm),
       ("identifier", .str (dashToUnderscore (slugify nm))),
       ("method", .str mth), ("path", .str pth),
       ("status", .int status), ("response", resp)]) =
    .ok (.obj
      [("name", .str nm),
       ("identifier", .str (dashToUnderscore (slugify nm))),
       ("method", .str mth), ("path", .str pth),
       ("status", .int status), ("response", resp)]) := by
  have hrn : routeNameOf index
      [("name", .str nm),
       ("identifier", .str (dashToUnderscore (slugify nm))),
       ("method", .str mth), ("path", .str pth),
       ("status", .int status), ("response", resp)] = nm := by
    rw [routeNameOf]
    simp [pyGet, getVal?, truthy_str_of_ne hnm, pyStr]
  have hneid : (dashToUnderscore (slugify nm) == "") = false :=
    beq_eq_false_iff_ne.mpr (dashToUnderscore_ne_empty (slugify_ne_empty nm))
  simp [normalizeRoute, pyGetD, pyGet, getVal?, pyStr, hrn, hmth, h1, hpth,
    hneid, hresp, truthy_str_of_ne hnm,
    truthy_str_of_ne (startsWithSlash_ne_empty hpth), pyInt]
  simpa using h1

theorem normalizeRoute_idem {index : Nat} {route v : Value}
    (h : normalizeRoute index route = .ok v) :
    normalizeRoute index v = .ok v := by
  cases route with
  | null => simp [normalizeRoute] at h
  | bool b => simp [normalizeRoute] at h
  | int n => simp [normalizeRoute] at h
  | str s => simp [normalizeRoute] at h
  | list xs => simp [normalizeRoute] at h
  | obj r =>
    have hne : (dashToUnderscore (slugify (routeNameOf index r)) == "") = false :=
      beq_eq_false_iff_ne.mpr
        (dashToUnderscore_ne_empty (slugify_ne_empty (routeNameOf index r)))
    rw [normalizeRoute] at h
    by_cases h1 : allowedMethods.contains
        (pyUpper (pyStr (pyGetD r "method" (.str "GET")))) = true
    case neg =>
      rw [if_neg h1] at h
      exact absurd h (by simp)
    rw [if_pos h1] at h
    by_cases h2 : (!truthy (pyGet r "path") ||
        !startsWithSlash (pyStr (pyGet r "path"))) = true
    case pos =>
      rw [if_pos h2] at h
      exact absurd h (by simp)
    rw [if_neg h2] at h
    cases h3 : pyInt (pyGetD r "status" (.int 200)) with
    | none =>
      rw [h3] at h
      exact absurd h (by simp)
    | some status =>
      rw [h3, Except.ok.injEq] at h
      subst h
      have h2f : (!truthy (pyGet r "path") ||
          !startsWithSlash (pyStr (pyGet r "path"))) = false :=
        Bool.eq_false_iff.mpr h2
      rw [Bool.or_eq_false_iff] at h2f
      have h2b : startsWithSlash (pyStr (pyGet r "path")) = true := by
        have hx := h2f.2
        revert hx
        cases startsWithSlash (pyStr (pyGet r "path")) <;> simp
      have hcond :
          ¬((dashToUnderscore (slugify (routeNameOf index r)) == "") = true) := by
        simp [hne]
      rw [if_neg hcond]
      have hresp : truthy (if truthy (pyGet r "response") = true
          then pyGet r "response"
          else .obj [("message",
            .str ("Response from " ++ routeNameOf index r))]) = true := by
        by_cases hr : truthy (pyGet r "response") = true
        · rw [if_pos hr]
          exact hr
        · rw [if_neg hr]
          rfl
      exact normalizeRoute_ok_self index (routeNameOf_ne_empty index r)
        (pyUpper_idem _) h1 h2b hresp

theorem normalizeRoutes_idem {index : Nat} {rs vs : List Value}
    (h : normalizeRoutes index rs = .ok vs) :
    normalizeRoutes index vs = .ok vs := by
  induction rs generalizing index vs with
  | nil =>
    rw [normalizeRoutes, Except.ok.injEq] at h
    subst h
    rfl
  | cons r rest ih =>
    rw [normalizeRoutes] at h
    cases hv : normalizeRoute index r with
    | error e =>
      rw [hv] at h
      exact absurd h (by simp)
    | ok v =>
      rw [hv] at h
      cases hvs : normalizeRoutes (index + 1) rest with
      | error e =>
        rw [hvs] at h
        exact absurd h (by simp)
      | ok vs2 =>
        rw [hvs, Except.ok.injEq] at h
        subst h
        rw [normalizeRoutes, normalizeRoute_idem hv, ih hvs]

theorem normalizeRoutes_cons_ne_nil {i : Nat} {r : Value} {rest vs : List Value}
    (h : normalizeRoutes i (r :: rest) = .ok vs) : vs ≠ [] := by
  rw [normalizeRoutes] at h
  cases hv : normalizeRoute i r with
  | error e =>
    rw [hv] at h
    exact absurd h (by simp)
  | ok v =>
    rw [hv] at h
    cases hvs : normalizeRoutes (i + 1) rest with
    | error e =>
      rw [hvs] at h
      exact absurd h (by simp)
    | ok vs2 =>
      rw [hvs, Except.ok.injEq] at h
      subst h
      simp

theorem defaultRoute_normalizes (sn : String) :
    normalizeRoute 0 (defaultRoute sn) = .ok (defaultRoute sn) :=
  normalizeRoute_ok_self 0 (by decide) (by decide) (by decide) (by decide) rfl

/-- C2: `validate_requirements` is idempotent: whenever it succeeds on a
requirements mapping and returns the normalized spec `S`, running it again
on `S` succeeds and returns `S` itself. -/
theorem C2_validate_requirements_idem {d S : Obj}
    (h : validate_requirements d = .ok S) :
    validate_requirements S = .ok S := by
  rw [validate_requirements] at h
  cases hef : ensureFields "simple-python-service" d
      ["service_name", "description"] with
  | error e =>
    rw [hef] at h
    simp at h
  | ok u =>
    rw [hef] at h
    dsimp only at h
    cases hro : (if truthy (pyGet d "routes") = true
        then pyList (pyGet d "routes") else .ok []) with
    | error e =>
      rw [hro] at h
      simp at h
    | ok routes =>
      rw [hro] at h
      dsimp only at h
      cases hnr : (if routes.isEmpty = true
          then .ok [defaultRoute (serviceNameOf d)]
          else normalizeRoutes 0 routes) with
      | error e =>
        rw [hnr] at h
        simp at h
      | ok nroutes =>
        rw [hnr] at h
        dsimp only at h
        cases hport : pyInt (pyGetD d "port" (.int 8000)) with
        | none =>
          rw [hport] at h
          simp at h
        | some port =>
          rw [hport] at h
          dsimp only at h
          rw [Except.ok.injEq] at h
          subst h
          set S := updateVals d (normalizedPairs d nroutes port) with hSdef
          -- lookups in the updated dict
          have gsn : getVal? S "service_name" = some (.str (serviceNameOf d)) := by
            rw [hSdef]
            simp [normalizedPairs, updateVals_cons, updateVals_nil,
              getVal?_setVal_self, getVal?_setVal_ne]
          have gdesc : getVal? S "description" =
              some (.str (pyStr (pyGet d "description"))) := by
            rw [hSdef]
            simp [normalizedPairs, updateVals_cons, updateVals_nil,
              getVal?_setVal_self, getVal?_setVal_ne]
          have gver : getVal? S "version" = some (.str (versionOf d)) := by
            rw [hSdef]
            simp [normalizedPairs, updateVals_cons, updateVals_nil,
              getVal?_setVal_self, getVal?_setVal_ne]
          have gci : getVal? S "container_image" =
              some (.str (pyStr (containerImageOf d))) := by
            rw [hSdef]
            simp [normalizedPairs, updateVals_cons, updateVals_nil,
              getVal?_setVal_self, getVal?_setVal_ne]
          have gslug : getVal? S "slug" =
              some (.str (slugify (serviceNameOf d))) := by
            rw [hSdef]
            simp [normalizedPairs, updateVals_cons, updateVals_nil,
              getVal?_setVal_self, getVal?_setVal_ne]
          have groutes : getVal? S "routes" = some (.list nroutes) := by
            rw [hSdef]
            simp [normalizedPairs, updateVals_cons, updateVals_nil,
              getVal?_setVal_self, getVal?_setVal_ne]
          have gport : getVal? S "port" = some (.int port) := by
            rw [hSdef]
            simp [normalizedPairs, updateVals_cons, updateVals_nil,
              getVal?_setVal_self, getVal?_setVal_ne]
          -- pointwise lookups
          have pg_sn : pyGet S "service_name" = .str (serviceNameOf d) := by
            rw [pyGet, gsn]
            rfl
          have pg_desc : pyGet S "description" =
              .str (pyStr (pyGet d "description")) := by
            rw [pyGet, gdesc]
            rfl
          have pg_ci : pyGet S "container_image" =
              .str (pyStr (containerImageOf d)) := by
            rw [pyGet, gci]
            rfl
          have pg_routes : pyGet S "routes" = .list nroutes := by
            rw [pyGet, groutes]
            rfl
          have pgd_ver : pyGetD S "version" (.str "0.1.0") =
              .str (versionOf d) := by
            rw [pyGetD, gver]
            rfl
          have pgd_port : pyGetD S "port" (.int 8000) = .int port := by
            rw [pyGetD, gport]
            rfl
          -- derived locals agree
          have hsn2 : serviceNameOf S = serviceNameOf d := by
            rw [serviceNameOf, pg_sn]
            rfl
          have hver2 : versionOf S = versionOf d := by
            rw [versionOf, pgd_ver]
            rfl
          have hci2 : containerImageOf S = .str (pyStr (containerImageOf d)) := by
            rw [containerImageOf, pg_ci,
              if_pos (truthy_str_of_ne (containerImageOf_pyStr_ne_empty d))]
          -- non-empty normalized routes
          have nroutes_ne : nroutes ≠ [] := by
            by_cases hre : routes.isEmpty = true
            · rw [if_pos hre, Except.ok.injEq] at hnr
              rw [← hnr]
              simp
            · rw [if_neg hre] at hnr
              cases routes with
              | nil => exact absurd rfl hre
              | cons r rest => exact normalizeRoutes_cons_ne_nil hnr
          have hnr_self : normalizeRoutes 0 nroutes = .ok nroutes := by
            by_cases hre : routes.isEmpty = true
            · rw [if_pos hre, Except.ok.injEq] at hnr
              rw [← hnr, normalizeRoutes, defaultRoute_normalizes]
              rfl
            · rw [if_neg hre] at hnr
              exact normalizeRoutes_idem hnr
          -- stage equations for the second pass
          have hef2 : ensureFields "simple-python-service" S
              ["service_name", "description"] = .ok () := by
            rw [ensureFields]
            have k1 : hasKey S "service_name" = true := by
              rw [hasKey, gsn]
              rfl
            have k2 : hasKey S "description" = true := by
              rw [hasKey, gdesc]
              rfl
            simp [k1, k2]
          have htr : truthy (pyGet S "routes") = true := by
            rw [pg_routes, truthy]
            simpa using nroutes_ne
          have he_routes : (if truthy (pyGet S "routes") = true
              then pyList (pyGet S "routes") else .ok []) = .ok nroutes := by
            rw [if_pos htr, pg_routes]
            rfl
          have he_nr : (if nroutes.isEmpty = true
              then .ok [defaultRoute (serviceNameOf S)]
              else normalizeRoutes 0 nroutes) = .ok nroutes := by
            rw [if_neg (by simpa using nroutes_ne)]
            exact hnr_self
          have he_port : pyInt (pyGetD S "port" (.int 8000)) = some port := by
            rw [pgd_port]
            rfl
          have hfinal : updateVals S (normalizedPairs S nroutes port) = S := by
            apply updateVals_eq_self
            intro kv hkv
            fin_cases hkv
            · rw [hsn2]
              exact gsn
            · show getVal? S "description" =
                some (.str (pyStr (pyGet S "description")))
              rw [pg_desc]
              simp only [pyStr]
              exact gdesc
            · rw [hver2]
              exact gver
            · show getVal? S "container_image" =
                some (.str (pyStr (containerImageOf S)))
              rw [hci2]
              simp only [pyStr]
              exact gci
            · rw [hsn2]
              exact gslug
            · exact groutes
            · exact gport
          rw [validate_requirements, hef2]
          dsimp only
          rw [he_routes]
          dsimp only
          rw [he_nr]
          dsimp only
          rw [he_port]
          dsimp only
          rw [hfinal]

theorem C2_witness :
    validate_requirements c2spec = .ok c2norm ∧
    validate_requirements c2norm = .ok c2norm :=
  ⟨by rfl, C2_validate_requirements_idem (d := c2spec) (by rfl)⟩

/-! ### Filesystem lemmas -/
theorem contains_addDir {ds : List FPath} {q p : FPath}
    (h : ds.contains p = true) : (addDir ds q).contains p = true := by
  rw [addDir]
  by_cases hq : ds.contains q = true
  · rw [if_pos hq]
    exact h
  · rw [if_neg hq]
    simp at h ⊢
    exact Or.inl h

theorem contains_addDir_self (ds : List FPath) (q : FPath) :
    (addDir ds q).contains q = true := by
  rw [addDir]
  by_cases hq : ds.contains q = true
  · rw [if_pos hq]
    exact hq
  · rw [if_neg hq]
    simp

theorem contains_foldl_addDir {l : List FPath} {ds : List FPath} {p : FPath}
    (h : ds.contains p = true ∨ p ∈ l) :
    (l.foldl addDir ds).contains p = true := by
  induction l generalizing ds with
  | nil =>
    rcases h with h | h
    · exact h
    · exact absurd h (by simp)
  | cons a rest ih =>
    rw [List.foldl_cons]
    rcases h with h | h
    · exact ih (Or.inl (contains_addDir h))
    · rcases List.mem_cons.mp h with h | h
      · subst h
        exact ih (Or.inl (contains_addDir_self ds p))
      · exact ih (Or.inr h)

theorem dirExists_mkdirParents {fs : FS} {p q : FPath}
    (h : fs.dirExists p = true ∨ p ∈ prefixesOf q) :
    (fs.mkdirParents q).dirExists p = true :=
  contains_foldl_addDir h

theorem dirExists_write_text {fs : FS} {q : FPath} {c : String} {p : FPath}
    (h : fs.dirExists p = true) : (write_text fs q c).dirExists p = true :=
  dirExists_mkdirParents (Or.inl h)

theorem pathExists_of_dirExists {fs : FS} {p : FPath}
    (h : fs.dirExists p = true) : fs.pathExists p = true := by
  rw [FS.pathExists, h]
  rfl

theorem mem_prefixesOf_append_singleton (p : FPath) (x : String)
    (hne : p ≠ []) : p ∈ prefixesOf (p ++ [x]) := by
  rw [prefixesOf]
  have hpos : 0 < p.length := List.length_pos.mpr hne
  refine List.mem_map.mpr ⟨p.length - 1, ?_, ?_⟩
  · rw [List.mem_range, List.length_append]
    simp
    omega
  · have hlen : p.length - 1 + 1 = p.length := by omega
    rw [hlen]
    exact List.take_left p [x]

theorem readFile?_setFile_self (fs : FS) (p : FPath) (c : String) :
    (fs.setFile p c).readFile? p = some c := by
  rw [FS.setFile, FS.readFile?]
  simp

theorem generate_project_error_fs {spec : Obj} {dest : FPath} {fs fs1 : FS}
    {e : PyErr} (h : generate_project spec dest fs = (.error e, fs1)) :
    fs1 = fs := by
  rw [generate_project] at h
  cases hv : (if hasKey spec "slug" then .ok spec
      else validate_requirements spec : Except PyErr Obj) with
  | error e2 =>
    rw [hv] at h
    dsimp only at h
    rw [Prod.mk.injEq] at h
    exact h.2.symm
  | ok spec2 =>
    rw [hv] at h
    dsimp only at h
    by_cases hex : fs.pathExists
        (dest ++ [pyStr (pyGet spec2 "slug") ++ "-service"]) = true
    · rw [if_pos hex] at h
      rw [Prod.mk.injEq] at h
      exact h.2.symm
    · rw [if_neg hex] at h
      exact absurd h (by simp)

/-! ### Claim C9 -/
/-- C9: constructing a `TemplateManager` with an explicitly empty registry
mapping does not produce an empty manager: the empty mapping is falsy and
is discarded in favour of the default `TEMPLATE_REGISTRY`, so the built-in
template is still listed and retrievable. -/
theorem C9_empty_registry_falls_back :
    TemplateManager.make (some []) = TemplateManager.make none ∧
    (TemplateManager.make (some [])).list_templates =
      [⟨"simple-python-service",
        "Lightweight Python service using the standard library HTTP server.",
        some "1.0.0"⟩] ∧
    (TemplateManager.make (some [])).get_template "simple-python-service" =
      .ok .simplePythonService :=
  ⟨rfl, rfl, rfl⟩

/-! ### Claim C1 -/
/-- C1: in every successful pipeline run, a test outcome is present exactly
when `run_tests` was set, and a deployment outcome is present if and only
if `deploy` is true and either tests were skipped or the test outcome
passed; in particular a failing test outcome suppresses deployment
regardless of the `deploy` flag. -/
theorem C1_deploy_gate (python : String)
    (testProc : List String → FPath → ProcResult) (kubectl : Option String)
    (deployProc : List String → ProcResult) (manager : TemplateManager)
    (requirements : Obj) (template_name : String) (output_dir : FPath)
    (run_tests deploy : Bool) (ns : Option String) (fs fs2 : FS)
    (res : PipelineResult)
    (h : run_pipeline python testProc kubectl deployProc manager requirements
      template_name output_dir run_tests deploy ns fs = (.ok res, fs2)) :
    res.test_result.isSome = run_tests ∧
    (res.deployment_result.isSome = true ↔
      deploy = true ∧ (run_tests = false ∨
        ∃ t, res.test_result = some t ∧ t.passed = true)) := by
  rw [run_pipeline] at h
  cases hg : manager.get_template template_name with
  | error e =>
    rw [hg] at h
    simp at h
  | ok template =>
    rw [hg] at h
    dsimp only at h
    cases hv : template.validate requirements with
    | error e =>
      rw [hv] at h
      simp at h
    | ok validated =>
      rw [hv] at h
      dsimp only at h
      cases hgen : template.generate validated output_dir
          (fs.mkdirParents output_dir) with
      | mk exc fs1 =>
        cases exc with
        | error e =>
          rw [hgen] at h
          simp at h
        | ok project_path =>
          rw [hgen] at h
          dsimp only at h
          cases run_tests with
          | false =>
            cases deploy with
            | false =>
              simp at h
              obtain ⟨hres, hfs⟩ := h
              subst hres
              simp
            | true =>
              simp at h
              obtain ⟨hres, hfs⟩ := h
              subst hres
              simp
          | true =>
            cases deploy with
            | false =>
              simp at h
              obtain ⟨hres, hfs⟩ := h
              subst hres
              simp
            | true =>
              by_cases hp : (testRunnerRun python testProc project_path).passed = true
              · simp [hp] at h
                obtain ⟨hres, hfs⟩ := h
                subst hres
                simp [hp]
              · simp [hp] at h
                obtain ⟨hres, hfs⟩ := h
                subst hres
                simp [hp]

theorem C1_witness :
    c1res.test_result.isSome = true ∧
    (c1res.deployment_result.isSome = true ↔
      true = true ∧ (true = false ∨
        ∃ t, c1res.test_result = some t ∧ t.passed = true)) :=
  C1_deploy_gate "python3" (fun _ _ => ⟨0, "", ""⟩) none (fun _ => ⟨0, "", ""⟩)
    (TemplateManager.make none) c2spec "simple-python-service" ["out"]
    true true none ⟨[], []⟩ c1run.2 c1res (by rfl)

/-! ### Claim C3 (corrected) -/
/-- C3 counterexample: a pipeline run on a missing output directory with
invalid requirements surfaces the `ValidationError`, yet the filesystem
has changed — the output directory was created before validation ran. -/
theorem C3_counterexample :
    (run_pipeline "python3" (fun _ _ => ⟨0, "", ""⟩) none (fun _ => ⟨0, "", ""⟩)
      (TemplateManager.make none) [("service_name", .str "x")]
      "simple-python-service" ["out"] true true none ⟨[], []⟩ =
      (.error (.valueError
        "Missing required fields for template \x27simple-python-service\x27: description"),
       { dirs := [["out"]], files := [] })) ∧
    ({ dirs := [["out"]], files := [] } : FS) ≠ ⟨[], []⟩ :=
  ⟨by rfl, by decide⟩

/-- C3 (amended): when `run_pipeline` raises a `ValidationError`, no
project file or directory has been written; the only filesystem change at
the moment the error surfaces is that the output directory (with missing
parents) has been created, which `run_pipeline` does before validating. -/
theorem C3_no_write_before_validation_error (python : String)
    (testProc : List String → FPath → ProcResult) (kubectl : Option String)
    (deployProc : List String → ProcResult) (manager : TemplateManager)
    (requirements : Obj) (template_name : String) (output_dir : FPath)
    (run_tests deploy : Bool) (ns : Option String) (fs fs2 : FS) (msg : String)
    (h : run_pipeline python testProc kubectl deployProc manager requirements
      template_name output_dir run_tests deploy ns fs =
      (.error (.valueError msg), fs2)) :
    fs2 = fs.mkdirParents output_dir := by
  rw [run_pipeline] at h
  cases hg : manager.get_template template_name with
  | error e =>
    rw [hg] at h
    dsimp only at h
    rw [Prod.mk.injEq] at h
    exact h.2.symm
  | ok template =>
    rw [hg] at h
    dsimp only at h
    cases hv : template.validate requirements with
    | error e =>
      rw [hv] at h
      dsimp only at h
      rw [Prod.mk.injEq] at h
      exact h.2.symm
    | ok validated =>
      rw [hv] at h
      dsimp only at h
      cases hgen : template.generate validated output_dir
          (fs.mkdirParents output_dir) with
      | mk exc fs1 =>
        cases exc with
        | error e =>
          rw [hgen] at h
          dsimp only at h
          rw [Prod.mk.injEq] at h
          cases template
          have hfs := generate_project_error_fs hgen
          rw [← h.2, hfs]
        | ok project_path =>
          rw [hgen] at h
          dsimp only at h
          repeat' split at h
          all_goals simp at h

theorem C3_witness :
    ({ dirs := [["out"]], files := [] } : FS) =
      FS.mkdirParents ⟨[], []⟩ ["out"] :=
  C3_no_write_before_validation_error "python3" (fun _ _ => ⟨0, "", ""⟩) none
    (fun _ => ⟨0, "", ""⟩) (TemplateManager.make none)
    [("service_name", .str "x")] "simple-python-service" ["out"] true true none
    ⟨[], []⟩ { dirs := [["out"]], files := [] }
    "Missing required fields for template \x27simple-python-service\x27: description"
    (by rfl)

/-! ### Claim C4 -/
/-- C4: `generate_project` fails with `FileExistsError` and writes nothing
whenever the target project directory already exists, and consequently a
second generation with the same slug and destination always fails with
`FileExistsError`, leaving the filesystem unchanged. -/
theorem C4_generate_collision (spec : Obj) (dest : FPath) (fs : FS) :
    (hasKey spec "slug" = true →
      fs.pathExists (dest ++ [pyStr (pyGet spec "slug") ++ "-service"]) = true →
      generate_project spec dest fs =
        (.error (.fileExists ("Target project directory already exists: " ++
          pathStr (dest ++ [pyStr (pyGet spec "slug") ++ "-service"]))), fs)) ∧
    (∀ p fs1, generate_project spec dest fs = (.ok p, fs1) →
      generate_project spec dest fs1 =
        (.error (.fileExists ("Target project directory already exists: " ++
          pathStr p)), fs1)) := by
  constructor
  · intro hk hex
    rw [generate_project, if_pos hk]
    dsimp only
    rw [if_pos hex]
  · intro p fs1 h
    rw [generate_project] at h ⊢
    cases hv : (if hasKey spec "slug" then .ok spec
        else validate_requirements spec : Except PyErr Obj) with
    | error e =>
      rw [hv] at h
      exact absurd h (by simp)
    | ok spec2 =>
      rw [hv] at h
      dsimp only at h ⊢
      by_cases hex : fs.pathExists
          (dest ++ [pyStr (pyGet spec2 "slug") ++ "-service"]) = true
      · rw [if_pos hex] at h
        exact absurd h (by simp)
      · rw [if_neg hex] at h
        rw [Prod.mk.injEq, Except.ok.injEq] at h
        obtain ⟨hp, hfs⟩ := h
        subst hp
        subst hfs
        rw [if_pos ?hex2]
        case hex2 =>
          apply pathExists_of_dirExists
          rw [write_json]
          repeat refine dirExists_write_text ?_
          refine dirExists_mkdirParents (Or.inl ?_)
          refine dirExists_mkdirParents (Or.inl ?_)
          refine dirExists_mkdirParents (Or.inr ?_)
          exact mem_prefixesOf_append_singleton _ _ (by simp)

theorem C4_witness :
    generate_project c2norm ["out"]
      ((⟨[["out", "my-app-service"]], []⟩ : FS)) =
      (.error (.fileExists ("Target project directory already exists: " ++
        pathStr (["out"] ++ [pyStr (pyGet c2norm "slug") ++ "-service"]))),
       ⟨[["out", "my-app-service"]], []⟩) ∧
    generate_project c2norm ["out"] c4fs1 =
      (.error (.fileExists ("Target project directory already exists: " ++
        pathStr ["out", "my-app-service"])), c4fs1) :=
  ⟨(C4_generate_collision c2norm ["out"] ⟨[["out", "my-app-service"]], []⟩).1
      (by rfl) (by rfl),
   (C4_generate_collision c2norm ["out"] ⟨[], []⟩).2 ["out", "my-app-service"]
      c4fs1 (by rfl)⟩

/-! ### Claim C6 -/
theorem applyLoop_all_zero {k : String} {runCmd : List String → ProcResult}
    {ns : Option String} {mf : List String} (acc : List (List String))
    (ms : List String)
    (h : ∀ m ∈ ms, (runCmd (cmdFor k ns m)).returncode = 0) :
    applyLoop k runCmd ns mf ms acc =
      { applied := true, manifest_files := mf,
        message := "Applied Kubernetes manifests successfully.",
        command_sequence := acc ++ ms.map (cmdFor k ns) } := by
  induction ms generalizing acc with
  | nil =>
    rw [applyLoop]
    simp
  | cons m rest ih =>
    have h0 : ((runCmd (cmdFor k ns m)).returncode != 0) = false := by
      rw [h m (List.mem_cons_self _ _)]
      rfl
    rw [applyLoop]
    rw [if_neg (by simp [h0])]
    rw [ih _ (fun m2 h2 => h m2 (List.mem_cons_of_mem _ h2))]
    simp

theorem applyLoop_halts {k : String} {runCmd : List String → ProcResult}
    {ns : Option String} {mf : List String} (acc : List (List String))
    (good : List String) (bad : String) (rest : List String)
    (hgood : ∀ m ∈ good, (runCmd (cmdFor k ns m)).returncode = 0)
    (hbad : (runCmd (cmdFor k ns bad)).returncode ≠ 0) :
    applyLoop k runCmd ns mf (good ++ bad :: rest) acc =
      { applied := false, manifest_files := mf,
        message := "kubectl failed for " ++ bad ++ ": " ++
          pyStrip (if (runCmd (cmdFor k ns bad)).stderr != "" then
                     (runCmd (cmdFor k ns bad)).stderr
                   else if (runCmd (cmdFor k ns bad)).stdout != "" then
                     (runCmd (cmdFor k ns bad)).stdout
                   else "Unknown kubectl error"),
        command_sequence := acc ++ (good ++ [bad]).map (cmdFor k ns) } := by
  induction good generalizing acc with
  | nil =>
    rw [List.nil_append, applyLoop]
    rw [if_pos (by simp [bne_iff_ne.mpr hbad])]
    simp
  | cons g grest ih =>
    have h0 : ((runCmd (cmdFor k ns g)).returncode != 0) = false := by
      rw [hgood g (List.mem_cons_self _ _)]
      rfl
    rw [List.cons_append, applyLoop]
    rw [if_neg (by simp [h0])]
    rw [ih _ (fun m2 h2 => hgood m2 (List.mem_cons_of_mem _ h2))]
    simp

/-- C6: with a cluster CLI available, the deployer applies the sorted
manifests in order and halts at the first non-zero exit: the outcome has
`applied = false`, its message names the failing manifest and carries the
captured (stripped) error text, and the executed commands are exactly
those attempted up to and including the failing one; when every apply
exits zero the outcome has `applied = true` with all commands executed. -/
theorem C6_deploy_first_failure_halts (k : String)
    (runCmd : List String → ProcResult) (project_path : FPath)
    (ns : Option String) (fs : FS) :
    (∀ good bad rest,
      globYaml fs (project_path ++ ["k8s"]) = good ++ bad :: rest →
      (∀ m ∈ good, (runCmd (cmdFor k ns m)).returncode = 0) →
      (runCmd (cmdFor k ns bad)).returncode ≠ 0 →
      deploy (some k) runCmd project_path ns fs =
        ({ applied := false, manifest_files := good ++ bad :: rest,
           message := "kubectl failed for " ++ bad ++ ": " ++
             pyStrip (if (runCmd (cmdFor k ns bad)).stderr != "" then
                        (runCmd (cmdFor k ns bad)).stderr
                      else if (runCmd (cmdFor k ns bad)).stdout != "" then
                        (runCmd (cmdFor k ns bad)).stdout
                      else "Unknown kubectl error"),
           command_sequence := (good ++ [bad]).map (cmdFor k ns) }, fs)) ∧
    (globYaml fs (project_path ++ ["k8s"]) ≠ [] →
      (∀ m ∈ globYaml fs (project_path ++ ["k8s"]),
        (runCmd (cmdFor k ns m)).returncode = 0) →
      deploy (some k) runCmd project_path ns fs =
        ({ applied := true,
           manifest_files := globYaml fs (project_path ++ ["k8s"]),
           message := "Applied Kubernetes manifests successfully.",
           command_sequence :=
             (globYaml fs (project_path ++ ["k8s"])).map (cmdFor k ns) }, fs)) := by
  constructor
  · intro good bad rest hsplit hgood hbad
    rw [deploy]
    rw [hsplit]
    rw [if_neg (by simp)]
    rw [applyLoop_halts [] good bad rest hgood hbad]
    simp
  · intro hne hall
    rw [deploy]
    rw [if_neg (by simp [hne])]
    rw [applyLoop_all_zero [] _ hall]
    simp

theorem C6_witness :
    deploy (some "kubectl") c6fail ["p"] none c6fs =
      ({ applied := false,
         manifest_files := ["p/k8s/a.yaml"] ++ "p/k8s/b.yaml" :: [],
         message := "kubectl failed for " ++ "p/k8s/b.yaml" ++ ": " ++
           pyStrip (if (c6fail (cmdFor "kubectl" none "p/k8s/b.yaml")).stderr != "" then
                      (c6fail (cmdFor "kubectl" none "p/k8s/b.yaml")).stderr
                    else if (c6fail (cmdFor "kubectl" none "p/k8s/b.yaml")).stdout != "" then
                      (c6fail (cmdFor "kubectl" none "p/k8s/b.yaml")).stdout
                    else "Unknown kubectl error"),
         command_sequence :=
           (["p/k8s/a.yaml"] ++ ["p/k8s/b.yaml"]).map (cmdFor "kubectl" none) },
       c6fs) ∧
    deploy (some "kubectl") c6ok ["p"] none c6fs =
      ({ applied := true,
         manifest_files := globYaml c6fs (["p"] ++ ["k8s"]),
         message := "Applied Kubernetes manifests successfully.",
         command_sequence :=
           (globYaml c6fs (["p"] ++ ["k8s"])).map (cmdFor "kubectl" none) },
       c6fs) := by
  have hg : globYaml c6fs (["p"] ++ ["k8s"]) =
      ["p/k8s/a.yaml", "p/k8s/b.yaml"] := by rfl
  refine ⟨(C6_deploy_first_failure_halts "kubectl" c6fail ["p"] none c6fs).1
      ["p/k8s/a.yaml"] "p/k8s/b.yaml" [] hg (by decide) (by decide),
    (C6_deploy_first_failure_halts "kubectl" c6ok ["p"] none c6fs).2
      (by rw [hg]; simp) (by rw [hg]; decide)⟩

/-! ### Claim C8 (corrected) -/
/-- C8 counterexample: the per-route summary written into the metadata
file records the route name as well, so its key set is not limited to
method, path and status as the claim states. -/
theorem C8_counterexample :
    (metadataRouteSummaries c2norm).map valueKeys =
      [["name", "method", "path", "status"]] ∧
    ¬(["name", "method", "path", "status"] : List String) =
      ["method", "path", "status"] :=
  ⟨rfl, by decide⟩

/-- C8 (amended): the metadata file written by generation serializes the
template name, service identity, version and container image, and a
per-route summary holding exactly each route's name, method, path and
status — in particular no response bodies. -/
theorem C8_metadata_content (spec : Obj) (dest : FPath) (fs : FS)
    (p : FPath) (fs1 : FS) (hk : hasKey spec "slug" = true)
    (h : generate_project spec dest fs = (.ok p, fs1)) :
    fs1.readFile? (p ++ ["project-metadata.json"]) =
      some (jsonDumps 2 0 (export_metadata spec) ++ "\n") ∧
    valueKeys (export_metadata spec) =
      ["template", "service_name", "description", "version",
       "container_image", "routes"] ∧
    ∀ v ∈ metadataRouteSummaries spec,
      valueKeys v = ["name", "method", "path", "status"] := by
  refine ⟨?_, rfl, ?_⟩
  · rw [generate_project, if_pos hk] at h
    dsimp only at h
    by_cases hex : fs.pathExists
        (dest ++ [pyStr (pyGet spec "slug") ++ "-service"]) = true
    · rw [if_pos hex] at h
      exact absurd h (by simp)
    · rw [if_neg hex] at h
      rw [Prod.mk.injEq, Except.ok.injEq] at h
      obtain ⟨hp, hfs⟩ := h
      subst hp
      subst hfs
      rw [write_json, write_text, readFile?_setFile_self]
  · intro v hv
    rw [metadataRouteSummaries] at hv
    obtain ⟨r, _, hr⟩ := List.mem_map.mp hv
    rw [← hr]
    rfl

theorem C8_witness :
    (generate_project c2norm ["out"] ⟨[], []⟩).2.readFile?
        (["out", "my-app-service"] ++ ["project-metadata.json"]) =
      some (jsonDumps 2 0 (export_metadata c2norm) ++ "\n") ∧
    valueKeys (export_metadata c2norm) =
      ["template", "service_name", "description", "version",
       "container_image", "routes"] ∧
    ∀ v ∈ metadataRouteSummaries c2norm,
      valueKeys v = ["name", "method", "path", "status"] :=
  C8_metadata_content c2norm ["out"] ⟨[], []⟩ ["out", "my-app-service"]
    ((generate_project c2norm ["out"] ⟨[], []⟩).2) (by rfl) (by rfl)

end K8sAutoDev
